import Mathlib

/-!
# Verification of kanzi-go transforms against their specification

Shallow embedding, translated from the Go sources, of:

* `X86Codec.Forward` / `X86Codec.Inverse` / `X86Codec.MaxEncodedLen`
  (src/function/TextCodec.go),
* `RLT.Forward` / `RLT.Inverse` / `RLT.MaxEncodedLen` (src/function/RLT.go),
* `computeStats` and `textCodec1.Forward` / `textCodec1.Inverse`
  (src/function/TextCodec.go), including the packed static dictionary,
* the TPAQ predictor (`TPAQPredictor.Update`, `TPAQMixer`) from the entropy
  source file.

Go slices are modelled as `List ℕ` of byte values; a function that returns
`(read, written, error)` and writes sequentially into a destination buffer is
modelled as a `GoRes` carrying the produced bytes, with `GoRes.crash`
standing for a Go runtime panic (index out of range).  Machine integers are
`ℕ` bit patterns reduced modulo `2^32` where Go wraps; signed reads go
through `toS32`.
-/

set_option maxHeartbeats 1000000
set_option maxRecDepth 100000

namespace Kanzi

/-- Result of a Go transform call `(read, written, err)` writing into a
destination buffer of a given capacity.  `crash` models a Go runtime panic;
`ret` a normal return, carrying the bytes written (in order). -/
inductive GoRes where
  | crash : GoRes
  | ret (read written : ℕ) (err : Option String) (out : List ℕ) : GoRes
deriving DecidableEq

/-- Did the call return without error? -/
def GoRes.ok : GoRes → Bool
  | .ret _ _ none _ => true
  | _ => false

/-- Did the call return (not panic) with a non-nil error? -/
def GoRes.errSome : GoRes → Bool
  | .ret _ _ (some _) _ => true
  | _ => false

/-- The bytes the call wrote (empty for a crash). -/
def GoRes.outOf : GoRes → List ℕ
  | .crash => []
  | .ret _ _ _ o => o

/-- The returned read count (0 for a crash). -/
def GoRes.readOf : GoRes → ℕ
  | .crash => 0
  | .ret r _ _ _ => r

/-- The returned written count (0 for a crash). -/
def GoRes.writtenOf : GoRes → ℕ
  | .crash => 0
  | .ret _ w _ _ => w

/-- 32-bit wrap-around addition on bit patterns (Go `int32`/`uint32` `+`). -/
def add32 (a b : ℕ) : ℕ := (a + b) % 4294967296

/-- 32-bit wrap-around subtraction on bit patterns (Go `int32`/`uint32` `-`). -/
def sub32 (a b : ℕ) : ℕ := (a + (4294967296 - b % 4294967296)) % 4294967296

/-- 32-bit wrap-around multiplication on bit patterns. -/
def mul32 (a b : ℕ) : ℕ := (a * b) % 4294967296

/-- 32-bit wrap-around left shift. -/
def shl32 (a n : ℕ) : ℕ := (a <<< n) % 4294967296

/-- The signed value of a 32-bit pattern (Go `int32` view). -/
def toS32 (a : ℕ) : ℤ := if a < 2147483648 then (a : ℤ) else (a : ℤ) - 4294967296

/-- The 32-bit pattern of a signed value (inverse of `toS32` on range). -/
def ofS32 (z : ℤ) : ℕ := (z % 4294967296).toNat

/-- Arithmetic (sign-propagating) right shift of a 32-bit pattern, `n ≤ 32`. -/
def sar32 (a n : ℕ) : ℕ :=
  if a < 2147483648 then a >>> n else (a >>> n) + (4294967296 - 2 ^ (32 - n))

/-! ## X86Codec (src/function/TextCodec.go, lines 2027-2212) -/

/-- `X86Codec.MaxEncodedLen` (TextCodec.go lines 2200-2212). -/
def x86MaxEncodedLen (srcLen : ℕ) : ℕ :=
  if srcLen ≥ 2 ^ 30 then srcLen
  else if srcLen ≤ 512 then srcLen + 32
  else srcLen + srcLen / 16

/-- The jump-counting scan of `X86Codec.Forward` (lines 2066-2079).  The
`src[i] != 0 && src[i] != 1 && src[i] != 2` conflict test is written on the
instruction byte `src[i]` (which is `0xE8`/`0xE9` whenever the branch is
reached), exactly as in the source. -/
def x86CountJumps (src : List ℕ) : ℕ :=
  ((List.range (src.length - 8)).filter fun i =>
    (src.getD i 0 &&& 0xFE == 0xE8) &&
    ((src.getD (i + 4) 0 == 0) || (src.getD (i + 4) 0 == 255)) &&
    ((src.getD i 0 != 0) && (src.getD i 0 != 1) && (src.getD i 0 != 2))).length

/-- Main loop of `X86Codec.Forward` (lines 2091-2129): from source position
`s` with loop bound `endF = count - 8`, returns the final source index and
the bytes written by the loop from that point on.  `fuel` only drives the
structural recursion; every iteration advances `s`, so any `fuel ≥ endF - s`
(the callers pass `src.length`) is beyond the loop's iteration count. -/
def x86FwdLoop (src : List ℕ) (endF : ℕ) : ℕ → ℕ → ℕ × List ℕ
  | 0, s => (s, [])
  | fuel + 1, s =>
    if s < endF then
      let b := src.getD s 0
      if b &&& 0xFE = 0xE8 then
        let cur := src.getD (s + 1) 0
        if cur = 0 ∨ cur = 1 ∨ cur = 2 then
          -- conflict: emit escape symbol plus the literal
          match x86FwdLoop src endF fuel (s + 2) with
          | (sf, out) => (sf, b :: 2 :: cur :: out)
        else
          let sgn := src.getD (s + 4) 0
          if sgn = 0 ∨ sgn = 255 then
            -- relative → absolute: addr = le32(src[s+1..s+4]) + (s+1), wrapped
            let addr := add32
              (cur ||| (src.getD (s + 2) 0 <<< 8) ||| (src.getD (s + 3) 0 <<< 16) ||| (sgn <<< 24))
              (s + 1)
            match x86FwdLoop src endF fuel (s + 5) with
            | (sf, out) =>
              (sf, b :: (sgn + 1) % 256 :: (0xD5 ^^^ (addr >>> 16) % 256) ::
                (0xD5 ^^^ (addr >>> 8) % 256) :: (0xD5 ^^^ addr % 256) :: out)
          else
            -- invalid sign byte: false positive, just the copied byte
            match x86FwdLoop src endF fuel (s + 1) with
            | (sf, out) => (sf, b :: out)
      else
        match x86FwdLoop src endF fuel (s + 1) with
        | (sf, out) => (sf, b :: out)
    else (s, [])

/-- `X86Codec.Forward` (lines 2055-2138).  The aliasing guard
`&src[0] == &dst[0]` evaluates `src[0]` and `dst[0]` before any length
check, so either slice being empty panics; `aliased` says whether the two
buffers share their first element.  A write beyond `dstLen` is a panic. -/
def x86Forward (src : List ℕ) (dstLen : ℕ) (aliased : Bool) : GoRes :=
  if src.length = 0 then .crash
  else if dstLen = 0 then .crash
  else if aliased then .ret 0 0 (some "Input and output buffers cannot be equal") []
  else
    let count := src.length
    if dstLen < x86MaxEncodedLen count then
      .ret 0 0 (some "Output buffer is too small") []
    else if x86CountJumps src < count >>> 7 then
      .ret 0 0 (some "Not a binary or not enough jumps") []
    else
      match x86FwdLoop src (count - 8) count 0 with
      | (sf, outLoop) =>
        let out := outLoop ++ src.drop sf
        if dstLen < out.length then .crash
        else .ret count out.length none out

/-- Main loop of `X86Codec.Inverse` (lines 2153-2188): `q` is the position in
the encoded input, `p` the number of bytes already written (Go's `dstIdx`,
used to undo the `+ srcIdx` offset).  `fuel` drives the recursion as in
`x86FwdLoop`. -/
def x86InvLoop (src : List ℕ) (endI : ℕ) : ℕ → ℕ → ℕ → ℕ × List ℕ
  | 0, q, _ => (q, [])
  | fuel + 1, q, p =>
    if q < endI then
      let b := src.getD q 0
      if b &&& 0xFE = 0xE8 then
        let sgn := src.getD (q + 1) 0
        if sgn = 2 then
          -- escape symbol: skip it, the literal is copied by the next iteration
          match x86InvLoop src endI fuel (q + 2) (p + 1) with
          | (qf, out) => (qf, b :: out)
        else if sgn = 0 ∨ sgn = 1 then
          let addr := sub32
            ((0xD5 ^^^ src.getD (q + 4) 0) ||| ((0xD5 ^^^ src.getD (q + 3) 0) <<< 8) |||
              ((0xD5 ^^^ src.getD (q + 2) 0) <<< 16) ||| (((sgn + 255) % 256) <<< 24))
            (p + 1)
          match x86InvLoop src endI fuel (q + 5) (p + 5) with
          | (qf, out) =>
            (qf, b :: addr % 256 :: (addr >>> 8) % 256 :: (addr >>> 16) % 256 ::
              (sgn + 255) % 256 :: out)
        else
          match x86InvLoop src endI fuel (q + 1) (p + 1) with
          | (qf, out) => (qf, b :: out)
      else
        match x86InvLoop src endI fuel (q + 1) (p + 1) with
        | (qf, out) => (qf, b :: out)
    else (q, [])

/-- `X86Codec.Inverse` (lines 2143-2197). -/
def x86Inverse (src : List ℕ) (dstLen : ℕ) (aliased : Bool) : GoRes :=
  if src.length = 0 then .crash
  else if dstLen = 0 then .crash
  else if aliased then .ret 0 0 (some "Input and output buffers cannot be equal") []
  else
    let count := src.length
    match x86InvLoop src (count - 8) count 0 0 with
    | (qf, outLoop) =>
      let out := outLoop ++ src.drop qf
      if dstLen < out.length then .crash
      else .ret count out.length none out

/-- The count of "valid relative jumps" in the words of the specification's
claim: instruction byte `0xE8`/`0xE9`, operand sign byte `0x00`/`0xFF`, and
first operand byte free of encoding conflicts (not `0`, `1` or the escape
`2`).  This follows the claim's words, for comparison with `x86CountJumps`
which the source actually computes. -/
def x86ClaimValidJumps (src : List ℕ) : ℕ :=
  ((List.range (src.length - 8)).filter fun i =>
    ((src.getD i 0 == 0xE8) || (src.getD i 0 == 0xE9)) &&
    ((src.getD (i + 4) 0 == 0) || (src.getD (i + 4) 0 == 255)) &&
    ((src.getD (i + 1) 0 != 0) && (src.getD (i + 1) 0 != 1) &&
      (src.getD (i + 1) 0 != 2))).length

/-- A 128-byte block whose single `E8` jump has a conflicting first operand
byte (`0`), used against the claim that such jumps do not count. -/
def c9Src : List ℕ := 0xE8 :: 0 :: 0 :: 0 :: 0 :: List.replicate 123 0

/-! ## RLT (src/function/RLT.go) -/

/-- `RLT.MaxEncodedLen` (RLT.go lines 392-398). -/
def rltMaxEncodedLen (srcLen : ℕ) : ℕ :=
  if srcLen ≤ 512 then srcLen + 32 else srcLen

/-- Modelled from the spec: `kanzi.ComputeHistogram` (a shared utility, §2
"Shared utilities (stretch/squash, histogram)") is not among the staged
sources; it fills `freqs[b]` with the number of occurrences of byte `b`. -/
def rltHist (src : List ℕ) (b : ℕ) : ℕ := src.countP (· == b)

/-- The scan of `RLT.Forward`'s escape-selection loop (lines 84-94): keep the
first index whose frequency is a strict improvement. -/
def rltMinIdx (src : List ℕ) : List ℕ → ℕ → ℕ
  | [], m => m
  | i :: is, m =>
    if rltHist src i < rltHist src m then rltMinIdx src is i else rltMinIdx src is m

/-- The escape-symbol selection of `RLT.Forward` (lines 81-96): the first
byte value attaining the minimum frequency.  The source's guard
`freqs[minIdx] > 0` and its early `break` on a zero frequency do not change
the result (no frequency is below zero, and the first zero found is final). -/
def rltEscape (src : List ℕ) : ℕ := rltMinIdx src (List.range 256) 0

/-- State of the `RLT.Forward` main loop. -/
structure RltFwdSt where
  srcIdx : ℕ
  dstIdx : ℕ
  prev : ℕ
  run : ℕ
  out : List ℕ
  err : Option String

/-- `emitRunLength` (RLT.go lines 228-265) on the slice `dst[dstIdx:dstEnd]`
of length `n`: `none` is a Go panic (unchecked write beyond the slice),
otherwise the bytes written and the error.  On an error return the caller
breaks without advancing `dstIdx`, so the bytes are dropped. -/
def rltEmitRunLength (n run escape val : ℕ) : Option (List ℕ × Option String) :=
  if n = 0 then none      -- dst[0] = val panics
  else
    let hdr : List ℕ := if val = escape then [val, 0, escape] else [val, escape]
    if n < hdr.length then none     -- dst[1] / dst[dstIdx] panics
    else
      let dstIdx := hdr.length
      let run1 := run - 3
      if run1 ≥ 224 then
        if run1 < 7936 then
          if dstIdx ≥ n - 2 then some ([], some "Output buffer too small")
          else
            let run2 := run1 - 224
            some (hdr ++ [(224 + (run2 >>> 8)) % 256, run2 % 256], none)
        else
          if dstIdx ≥ n - 3 then some ([], some "Output buffer too small")
          else
            let run2 := run1 - 7936
            some (hdr ++ [255, (run2 >>> 8) % 256, run2 % 256], none)
      else
        if n ≤ dstIdx then none     -- final dst[dstIdx] = byte(run) panics
        else some (hdr ++ [run1 % 256], none)

/-- Main loop of `RLT.Forward` (lines 111-180).  One recursion step is one
Go iteration; the nested `prev == src[srcIdx]` tests consume up to four
bytes, and a full run of four continues the loop directly.  `none` models a
panic propagated from `emitRunLength`. -/
def rltFwdLoop (src : List ℕ) (srcEnd4 dstEnd escape : ℕ) :
    ℕ → RltFwdSt → Option RltFwdSt
  | 0, st => some st
  | fuel + 1, st =>
    if st.srcIdx < srcEnd4 then
      -- run detection (the unrolled nested ifs)
      let n1 := if src.getD st.srcIdx 0 = st.prev then
                  if src.getD (st.srcIdx + 1) 0 = st.prev then
                    if src.getD (st.srcIdx + 2) 0 = st.prev then
                      if src.getD (st.srcIdx + 3) 0 = st.prev then 4 else 3
                    else 2
                  else 1
                else 0
      let s' := st.srcIdx + n1
      let run' := st.run + n1
      if n1 = 4 ∧ run' < 73469 then
        -- all four matched below MAX_RUN4: continue
        rltFwdLoop src srcEnd4 dstEnd escape fuel { st with srcIdx := s', run := run' }
      else
        -- emit the pending run, then restart a run at src[s']
        let step : Option (ℕ × List ℕ × Option String) :=
          if run' > 3 then
            match rltEmitRunLength (dstEnd - st.dstIdx) run' escape st.prev with
            | none => none
            | some (bytes, none) => some (st.dstIdx + bytes.length, st.out ++ bytes, none)
            | some (_, some e) => some (st.dstIdx, st.out, some e)
          else if st.prev ≠ escape then
            if st.dstIdx + run' ≥ dstEnd then
              some (st.dstIdx, st.out, some "Output buffer is too small")
            else some (st.dstIdx + run', st.out ++ List.replicate run' st.prev, none)
          else
            if st.dstIdx + 2 * run' ≥ dstEnd then
              some (st.dstIdx, st.out, some "Output buffer is too small")
            else some (st.dstIdx + 2 * run',
              st.out ++ (List.replicate run' ([escape, 0] : List ℕ)).flatten, none)
        match step with
        | none => none
        | some (d', out', some e) =>
          some { srcIdx := s', dstIdx := d', prev := st.prev, run := run', out := out',
                 err := some e }
        | some (d', out', none) =>
          rltFwdLoop src srcEnd4 dstEnd escape fuel
            { srcIdx := s' + 1, dstIdx := d', prev := src.getD s' 0, run := 1, out := out',
              err := none }
    else some st

/-- `RLT.Forward` (RLT.go lines 60-226). -/
def rltForward (src : List ℕ) (dstLen : ℕ) (aliased : Bool) : GoRes :=
  if src.length = 0 then .ret 0 0 none []
  else if dstLen = 0 then .crash      -- &dst[0] of an empty dst panics
  else if aliased then .ret 0 0 (some "Input and output buffers cannot be equal") []
  else if dstLen < rltMaxEncodedLen src.length then
    .ret 0 0 (some "Output buffer is too small") []
  else
    let srcEnd := src.length
    let srcEnd4 := srcEnd - 4
    let dstEnd := dstLen
    let escape := rltEscape src
    let prev := src.getD 0 0
    let hdr : List ℕ := if prev = escape then [escape, prev, 0] else [escape, prev]
    match rltFwdLoop src srcEnd4 dstEnd escape srcEnd
        { srcIdx := 1, dstIdx := hdr.length, prev := prev, run := 0, out := hdr,
          err := none } with
    | none => .crash
    | some st =>
      match st.err with
      | some e => .ret st.srcIdx st.dstIdx (some e) st.out
      | none =>
        -- process any remaining run (lines 182-209)
        let step : Option (ℕ × List ℕ × Option String) :=
          if st.run > 3 then
            match rltEmitRunLength (dstEnd - st.dstIdx) st.run escape st.prev with
            | none => none
            | some (bytes, none) => some (st.dstIdx + bytes.length, st.out ++ bytes, none)
            | some (_, some e) => some (st.dstIdx, st.out, some e)
          else if st.prev ≠ escape then
            if st.dstIdx + st.run < dstEnd then
              some (st.dstIdx + st.run, st.out ++ List.replicate st.run st.prev, none)
            else some (st.dstIdx, st.out, none)
          else
            if st.dstIdx + 2 * st.run < dstEnd then
              some (st.dstIdx + 2 * st.run,
                st.out ++ (List.replicate st.run ([escape, 0] : List ℕ)).flatten, none)
            else some (st.dstIdx, st.out, none)
        match step with
        | none => .crash
        | some (d1, out1, err1) =>
          -- copy the last few bytes (lines 211-216), then the final checks
          let k := min (srcEnd - st.srcIdx) (dstEnd - d1)
          let s2 := st.srcIdx + k
          let d2 := d1 + k
          let out2 := out1 ++ (src.drop st.srcIdx).take k
          let err2 := if s2 ≠ srcEnd then some "Output buffer is too small"
                      else if d2 > s2 then some "Input not compressed"
                      else err1
          .ret s2 d2 err2 out2

/-- Main loop of `RLT.Inverse` (lines 300-382).  The output is accumulated in
reverse (`revOut`), so that Go's read of its own output `dst[dstIdx-1]` is
the head; `none` models the panic of that read when nothing was written. -/
def rltInvLoop (src : List ℕ) (srcEnd dstEnd escape : ℕ) :
    ℕ → ℕ → ℕ → List ℕ → Option (ℕ × ℕ × List ℕ × Option String)
  | 0, s, d, revOut => some (s, d, revOut, none)
  | fuel + 1, s, d, revOut =>
    if s < srcEnd then
      if src.getD s 0 ≠ escape then
        -- literal
        if d ≥ dstEnd then some (s, d, revOut, some "Invalid input data")
        else rltInvLoop src srcEnd dstEnd escape fuel (s + 1) (d + 1)
          (src.getD s 0 :: revOut)
      else
        let s1 := s + 1
        if s1 ≥ srcEnd then some (s1, d, revOut, some "Invalid input data")
        else if d = 0 then none        -- val := dst[dstIdx-1] panics
        else
          let val := revOut.headD 0
          let run := src.getD s1 0
          let s2 := s1 + 1
          if run = 0 then
            -- just an escape symbol, not a run
            if d ≥ dstEnd then some (s2, d, revOut, some "Invalid input data")
            else rltInvLoop src srcEnd dstEnd escape fuel s2 (d + 1) (escape :: revOut)
          else
            -- decode the length
            let dec : Option (ℕ × ℕ) :=
              if run = 255 then
                if s2 + 1 ≥ srcEnd then none
                else some ((((src.getD s2 0 <<< 8) ||| src.getD (s2 + 1) 0) + 7936), s2 + 2)
              else if run ≥ 224 then
                if s2 ≥ srcEnd then none
                else some (((((run - 224) <<< 8) ||| src.getD s2 0) + 224), s2 + 1)
              else some (run, s2)
            match dec with
            | none => some (s2, d, revOut, some "Invalid input data")
            | some (runD, s3) =>
              let run3 := runD + 2
              if d + run3 ≥ dstEnd ∨ run3 > 73473 then
                some (s3, d, revOut, some "Invalid run length")
              else rltInvLoop src srcEnd dstEnd escape fuel s3 (d + run3)
                (List.replicate run3 val ++ revOut)
    else some (s, d, revOut, none)

/-- `RLT.Inverse` (RLT.go lines 270-389). -/
def rltInverse (src : List ℕ) (dstLen : ℕ) (aliased : Bool) : GoRes :=
  if src.length = 0 then .ret 0 0 none []
  else if dstLen = 0 then .crash      -- &dst[0] of an empty dst panics
  else if aliased then .ret 0 0 (some "Input and output buffers cannot be equal") []
  else
    let srcEnd := src.length
    let dstEnd := dstLen
    let escape := src.getD 0 0
    if srcEnd ≤ 1 then .crash         -- the read src[1] below panics
    else if src.getD 1 0 = escape ∧ 2 < srcEnd ∧ src.getD 2 0 ≠ 0 then
      .ret 2 0 (some "Invalid input data: input starts with a run") []
    else
      -- when the data starts with an escape literal, consume it and emit escape
      let s0 := if src.getD 1 0 = escape then 3 else 1
      let d0 := if src.getD 1 0 = escape then 1 else 0
      let rev0 : List ℕ := if src.getD 1 0 = escape then [escape] else []
      match rltInvLoop src srcEnd dstEnd escape srcEnd s0 d0 rev0 with
      | none => .crash
      | some (s, d, revOut, err) =>
        let err' := if s ≠ srcEnd ∧ err = none then some "Invalid input data" else err
        .ret s d err' revOut.reverse

/-! ## textCodec1 (src/function/TextCodec.go, lines 28-1446)

The dictionary state is modelled with value semantics: `dictMap` is an
association list from hash-table index to `Option TCDictEntry` (newest entry
first, a stored `none` being Go's nil pointer written on eviction), and
`dictList` is a function from index to entry.  Go stores pointers into
`dictList` in the map and evicts the map entry under an entry's old hash
before mutating it, so each dynamic slot is referenced only under its
current hash and the value-semantics model is observationally equivalent. -/

/-- Packed static dictionary `TC_DICT_EN_1024` (TextCodec.go lines 89-604), part 1. -/
def tcDictPacked1 : List ℕ := [
  204, 113, 33, 18, 3, 67, 184, 90, 13, 204, 237, 136, 76, 122, 19, 204, 112, 19,
  148, 228, 120, 57, 73, 196, 156, 5, 68, 184, 220, 128, 32, 60, 128, 98, 4, 225,
  81, 61, 132, 133, 137, 192, 15, 49, 196, 98, 4, 182, 57, 66, 195, 216, 115, 174,
  70, 32, 13, 176, 6, 35, 59, 49, 200, 75, 96, 18, 161, 43, 20, 8, 120, 13,
  98, 84, 78, 50, 211, 147, 200, 113, 54, 28, 4, 243, 28, 66, 17, 216, 114, 2,
  30, 97, 19, 152, 133, 68, 156, 4, 160, 68, 73, 200, 50, 113, 17, 136, 227, 4,
  177, 139, 148, 71, 97, 17, 19, 98, 11, 47, 35, 140, 18, 17, 2, 1, 68, 132,
  204, 113, 17, 19, 49, 209, 57, 65, 135, 204, 66, 203, 216, 113, 13, 216, 228, 74,
  204, 113, 12, 224, 68, 244, 62, 229, 141, 185, 68, 232, 53, 51, 169, 81, 36, 226,
  57, 66, 195, 185, 81, 17, 184, 176, 243, 28, 131, 74, 140, 6, 54, 1, 140, 199,
  0, 218, 200, 40, 75, 147, 28, 68, 103, 57, 108, 199, 16, 218, 19, 74, 241, 14,
  60, 177, 51, 88, 235, 14, 68, 76, 199, 17, 33, 33, 16, 67, 109, 57, 109, 128,
  53, 57, 72, 69, 36, 237, 17, 109, 18, 19, 33, 4, 204, 131, 4, 176, 3, 108,
  0, 214, 51, 28, 131, 70, 176, 2, 132, 156, 68, 68, 216, 66, 203, 184, 210, 216,
  156, 132, 181, 17, 22, 32, 21, 49, 17, 216, 132, 199, 57, 68, 224, 52, 228, 199,
  17, 27, 78, 128, 178, 225, 16, 178, 4, 84, 72, 68, 20, 228, 68, 184, 81, 115,
  28, 229, 6, 31, 35, 160, 24, 2, 13, 73, 61, 135, 32, 177, 43, 1, 36, 243,
  56, 232, 206, 88, 220, 206, 12, 6, 50, 0, 193, 33, 0, 34, 179, 0, 161, 36,
  0, 33, 227, 32, 81, 68, 68, 67, 83, 216, 113, 17, 18, 17, 19, 88, 65, 13,
  204, 115, 146, 18, 69, 68, 55, 33, 4, 55, 67, 67, 17, 24, 1, 57, 68, 238,
  52, 72, 11, 72, 233, 64, 9, 59, 20, 73, 56, 2, 77, 64, 11, 45, 139, 209,
  17, 81, 13, 78, 69, 207, 16, 36, 226, 56, 212, 192, 32, 216, 142, 52, 33, 17,
  54, 193, 50, 8, 115, 142, 47, 129, 0, 71, 50, 15, 172, 0, 99, 80, 73, 21,
  17, 28, 206, 88, 4, 67, 152, 132, 75, 148, 132, 76, 152, 176, 18, 74, 96, 18,
  168, 65, 15, 216, 228, 75, 15, 36, 200, 44, 189, 132, 53, 60, 135, 57, 66, 195,
  200, 241, 13, 15, 36, 192, 24, 72, 206, 9, 51, 145, 176, 129, 135, 78, 147, 129,
  152, 232, 142, 53, 50, 13, 80, 73, 21, 17, 22, 14, 52, 75, 68, 84, 68, 96,
  53, 37, 132, 70, 81, 22, 176, 64, 13, 140, 129, 69, 17, 17, 13, 8, 76, 196,
  52, 59, 68, 16, 58, 196, 1, 81, 51, 69, 139, 72, 8, 73, 206, 44, 60, 142,
  48, 68, 199, 32, 209, 160, 72, 173, 128, 68, 202, 200, 62, 35, 149, 17, 26, 18,
  73, 65, 39, 0, 243, 196, 55, 53, 17, 54, 179, 142, 43, 37, 17, 18, 50, 18,
  8, 229, 68, 70, 82, 6, 29, 59, 0, 14, 50, 17, 16, 36, 200, 56, 216, 6,
  68, 65, 50, 56, 193, 14, 52, 73, 64, 32, 188, 68, 72, 241, 2, 78, 211, 147,
  32, 33, 34, 28, 226, 2, 18, 17, 6, 32, 220, 199, 68, 65, 50, 97, 36, 196,
  50, 177, 21, 16, 185, 68, 16, 187, 4, 17, 56, 142, 48, 240, 13, 98, 19, 151,
  200, 115, 150, 188, 176, 24, 172, 133, 68, 172, 68, 211, 17, 25, 6, 26, 213, 12,
  4, 68, 110, 60, 67, 111, 68, 224, 75, 16, 201, 64, 78, 112, 13, 14, 193, 0,
  73, 68, 68, 193, 65, 18, 76, 131, 141, 136, 2, 203, 196, 67, 4, 48, 17, 17,
  136, 68, 83, 0, 131, 111, 81, 59, 68, 93, 56, 135, 0, 132, 114, 76]

/-- Packed static dictionary `TC_DICT_EN_1024` (TextCodec.go lines 89-604), part 2. -/
def tcDictPacked2 : List ℕ := [
  4, 83, 197, 67, 113, 0, 132, 132, 152, 224, 11, 196, 64, 11, 45, 137, 206, 48,
  76, 196, 2, 32, 13, 12, 128, 192, 76, 75, 14, 52, 70, 33, 81, 34, 13, 17,
  36, 184, 57, 67, 70, 152, 227, 131, 136, 229, 17, 78, 82, 13, 14, 163, 78, 90,
  162, 13, 14, 113, 11, 62, 210, 6, 29, 56, 135, 32, 176, 235, 57, 62, 14, 81,
  29, 18, 145, 129, 56, 17, 45, 142, 68, 56, 72, 79, 80, 13, 176, 227, 83, 30,
  112, 11, 22, 179, 150, 176, 130, 203, 32, 227, 103, 32, 97, 238, 68, 96, 13, 33,
  144, 19, 32, 227, 113, 16, 57, 145, 16, 67, 97, 45, 65, 54, 28, 132, 196, 132,
  176, 2, 43, 131, 148, 69, 33, 11, 22, 66, 6, 29, 56, 78, 76, 122, 200, 77,
  50, 196, 156, 229, 18, 18, 177, 19, 140, 68, 143, 33, 49, 47, 68, 229, 72, 12,
  76, 132, 69, 82, 2, 18, 114, 12, 72, 66, 197, 149, 18, 4, 52, 56, 196, 72,
  36, 72, 4, 73, 64, 76, 113, 17, 140, 69, 68, 44, 227, 204, 16, 212, 224, 88,
  6, 42, 32, 178, 243, 68, 131, 231, 57, 68, 102, 0, 193, 46, 21, 49, 13, 188,
  176, 13, 78, 242, 192, 8, 73, 13, 14, 3, 14, 52, 108, 136, 52, 33, 50, 76,
  3, 67, 140, 68, 136, 24, 219, 192, 69, 50, 2, 80, 176, 17, 201, 64, 195, 16,
  210, 216, 176, 67, 1, 17, 27, 192, 98, 176, 22, 132, 227, 138, 200, 130, 196, 52,
  33, 32, 44, 195, 146, 78, 131, 66, 45, 64, 196, 128, 96, 8, 54, 66, 19, 28,
  68, 115, 56, 226, 229, 33, 81, 46, 52, 33, 43, 16, 4, 147, 145, 115, 203, 0,
  131, 104, 12, 67, 83, 32, 86, 52, 53, 50, 11, 200, 132, 196, 176, 131, 84, 76,
  72, 142, 80, 242, 196, 216, 65, 10, 176, 4, 211, 17, 24, 81, 32, 209, 163, 17,
  48, 8, 46, 131, 69, 57, 19, 0, 76, 131, 141, 180, 228, 199, 32, 209, 160, 53,
  132, 199, 32, 209, 164, 84, 68, 88, 76, 114, 13, 26, 1, 142, 172, 64, 3, 200,
  227, 4, 76, 131, 4, 75, 67, 67, 17, 20, 147, 0, 208, 246, 28, 68, 199, 17,
  27, 64, 77, 68, 68, 204, 225, 132, 76, 113, 17, 148, 226, 203, 57, 107, 192, 68,
  67, 83, 201, 51, 143, 160, 208, 196, 16, 56, 200, 20, 82, 2, 80, 180, 239, 80,
  18, 200, 10, 2, 209, 16, 0, 216, 200, 241, 0, 42, 192, 8, 53, 48, 8, 55,
  17, 12, 0, 131, 103, 16, 4, 96, 44, 179, 150, 176, 64, 200, 2, 225, 69, 32,
  33, 33, 16, 209, 5, 33, 56, 206, 57, 25, 212, 26, 241, 17, 72, 227, 107, 1,
  49, 17, 141, 68, 72, 52, 109, 128, 70, 114, 18, 76, 228, 88, 129, 17, 148, 19,
  98, 19, 28, 131, 114, 17, 56, 17, 76, 128, 139, 19, 36, 192, 76, 131, 141, 176,
  228, 77, 32, 209, 182, 0, 178, 164, 84, 67, 83, 216, 131, 98, 28, 227, 146, 18,
  17, 7, 1, 82, 14, 71, 33, 206, 57, 57, 72, 68, 73, 78, 56, 60, 200, 76,
  177, 32, 68, 229, 13, 14, 2, 17, 204, 64, 2, 28, 68, 102, 0, 252, 148, 4,
  145, 2, 78, 67, 78, 80, 97, 239, 68, 229, 68, 128, 36, 78, 73, 40, 11, 76,
  115, 148, 24, 121, 196, 0, 57, 78, 57, 60, 132, 8, 227, 67, 132, 230, 44, 0,
  131, 107, 32, 72, 1, 44, 72, 136, 84, 130, 243, 0, 18, 196, 172, 229, 68, 189,
  19, 130, 17, 36, 174, 20, 81, 17, 201, 53, 3, 16, 212, 226, 56, 212, 136, 12,
  68, 96, 60, 241, 0, 71, 36, 212, 13, 136, 84, 98, 209, 0, 68, 182, 39, 80,
  192, 13, 145, 82, 3, 16, 208, 132, 204, 69, 211, 176, 68, 199, 56, 58, 13, 8,
  181, 3, 32, 209, 178, 16, 208, 241, 16, 2, 200, 100, 76, 132, 53, 33]

/-- Packed static dictionary `TC_DICT_EN_1024` (TextCodec.go lines 89-604), part 3. -/
def tcDictPacked3 : List ℕ := [
  33, 80, 130, 195, 136, 227, 83, 68, 226, 224, 80, 50, 4, 52, 33, 50, 17, 81,
  17, 0, 184, 148, 78, 35, 139, 44, 65, 132, 160, 212, 196, 68, 68, 147, 201, 64,
  130, 17, 36, 178, 60, 64, 136, 0, 188, 72, 72, 169, 23, 60, 68, 72, 16, 208,
  132, 132, 65, 200, 52, 56, 68, 77, 49, 17, 196, 68, 148, 45, 60, 209, 16, 4,
  242, 33, 124, 68, 44, 4, 200, 56, 212, 135, 32, 248, 13, 32, 192, 11, 160, 195,
  209, 57, 81, 39, 0, 132, 114, 76, 6, 51, 56, 252, 68, 13, 64, 132, 188, 68,
  71, 0, 244, 171, 1, 49, 54, 68, 132, 196, 70, 242, 2, 42, 66, 210, 19, 34,
  6, 52, 129, 72, 8, 3, 83, 136, 112, 13, 8, 73, 206, 76, 66, 230, 16, 209,
  17, 0, 188, 78, 8, 172, 68, 65, 66, 17, 18, 2, 206, 52, 105, 72, 79, 49,
  196, 49, 33, 11, 84, 68, 177, 16, 243, 145, 78, 35, 141, 12, 132, 200, 56, 220,
  68, 0, 33, 243, 69, 68, 199, 144, 81, 78, 69, 56, 196, 8, 128, 196, 196, 4,
  196, 144, 53, 2, 1, 50, 14, 54, 83, 145, 8, 73, 128, 68, 49, 13, 141, 21,
  6, 172, 64, 3, 17, 29, 78, 32, 33, 48, 80, 132, 196, 216, 115, 139, 19, 33,
  4, 50, 194, 13, 14, 82, 13, 0, 178, 216, 200, 132, 113, 17, 53, 17, 54, 84,
  68, 19, 36, 206, 69, 140, 68, 72, 243, 141, 14, 245, 18, 30, 0, 130, 57, 16,
  200, 52, 104, 81, 57, 49, 196, 70, 177, 0, 68, 220, 142, 54, 115, 143, 18, 49,
  21, 16, 179, 143, 148, 65, 11, 32, 209, 177, 16, 0, 226, 1, 20, 88, 140, 132,
  132, 1, 33, 49, 56, 0, 245, 1, 18, 14, 81, 40, 64, 44, 184, 128, 72, 75,
  143, 17, 16, 19, 32, 227, 98, 44, 228, 132, 212, 132, 136, 79, 17, 2, 16, 133,
  68, 133, 66, 11, 12, 131, 70, 212, 2, 212, 19, 17, 18, 16, 4, 66, 30, 85,
  11, 46, 195, 131, 16, 186, 78, 32, 220, 132, 1, 35, 141, 204, 5, 227, 33, 17,
  2, 76, 228, 111, 57, 34, 19, 32, 227, 111, 44, 6, 4, 71, 35, 206, 69, 57,
  17, 68, 228, 113, 16, 35, 145, 15, 19, 150, 140, 4, 192, 188, 3, 196, 71, 49,
  196, 57, 22, 50, 60, 0, 132, 145, 81, 17, 98, 83, 145, 51, 37, 15, 60, 228,
  83, 128, 36, 200, 56, 219, 133, 20, 128, 136, 0, 189, 135, 57, 33, 40, 12, 64,
  39, 0, 243, 216, 156, 64, 17, 78, 17, 18, 79, 49, 0, 50, 244, 78, 36, 64,
  147, 156, 132, 225, 1, 33, 49, 16, 244, 68, 72, 67, 83, 204, 229, 141, 189, 66,
  203, 133, 68, 172, 0, 248, 209, 98, 195, 140, 136, 4, 227, 0, 60, 78, 56, 204,
  140, 32, 177, 37, 32, 66, 195, 160, 195, 192, 9, 57, 84, 52, 58, 192, 68, 97,
  35, 56, 105, 212, 24, 75, 209, 16, 240, 17, 18, 67, 85, 33, 19, 141, 48, 67,
  83, 0, 187, 209, 56, 53, 2, 18, 113, 17, 72, 66, 197, 204, 64, 2, 30, 226,
  11, 201, 64, 135, 200, 132, 212, 1, 50, 14, 55, 50, 4, 136, 228, 147, 160, 208,
  212, 73, 52, 88, 200, 162, 13, 201, 52, 68, 17, 58, 12, 0, 97, 40, 77, 33,
  11, 22, 241, 206, 52, 75, 209, 32, 33, 54, 16, 4, 108, 57, 36, 242, 80, 220,
  142, 56, 216, 139, 16, 4, 111, 68, 0, 147, 32, 33, 47, 32, 64, 132, 216, 2,
  19, 196, 64, 132, 53, 58, 12, 60, 228, 83, 0, 212, 239, 68, 224, 212, 9, 58,
  196, 21, 61, 128, 44, 188, 132, 68, 129, 18, 180, 69, 146, 200, 112, 17, 18, 195,
  149, 32, 74, 136, 14, 211, 145, 200, 131, 15, 45, 141, 136, 20, 75, 141, 76, 232,
  128, 76, 33, 236, 97, 33, 11, 22, 82, 13, 18, 35, 140, 61, 68, 196]

/-- Packed static dictionary `TC_DICT_EN_1024` (TextCodec.go lines 89-604), part 4. -/
def tcDictPacked4 : List ℕ := [
  71, 35, 141, 26, 4, 211, 16, 212, 200, 56, 216, 209, 1, 105, 72, 44, 204, 68,
  61, 64, 75, 32, 32, 13, 200, 64, 148, 68, 132, 216, 200, 35, 145, 19, 49, 18,
  79, 36, 206, 8, 171, 206, 72, 132, 200, 84, 72, 128, 81, 33, 34, 16, 212, 212,
  69, 141, 136, 52, 51, 150, 176, 67, 14, 69, 137, 23, 33, 36, 235, 33, 36, 196,
  55, 36, 209, 0, 129, 135, 78, 37, 11, 77, 68, 68, 132, 130, 203, 32, 227, 101,
  57, 19, 4, 70, 49, 2, 33, 34, 14, 54, 67, 68, 68, 102, 44, 57, 81, 50,
  80, 195, 4, 71, 99, 141, 12, 68, 113, 16, 176, 19, 18, 5, 64, 32, 176, 1,
  44, 74, 200, 52, 74, 200, 40, 66, 216, 185, 68, 210, 32, 49, 50, 28, 228, 242,
  28, 228, 83, 136, 229, 13, 77, 22, 49, 56, 177, 32, 68, 64, 50, 32, 209, 139,
  19, 21, 11, 18, 48, 20, 24, 116, 196, 70, 192, 17, 40, 68, 232, 52, 50, 2,
  1, 49, 47, 68, 68, 132, 53, 58, 192, 52, 56, 128, 48, 240, 8, 24, 219, 0,
  76, 68, 72, 0, 187, 206, 61, 66, 192, 76, 131, 141, 144, 35, 141, 56, 198, 44,
  16, 50, 2, 0, 185, 206, 72, 242, 19, 0, 184, 135, 81, 16, 135, 153, 19, 148,
  52, 60, 199, 57, 68, 128, 52, 56, 20, 76, 115, 145, 33, 54, 40, 53, 36, 196,
  0, 60, 68, 8, 67, 83, 45, 137, 84, 77, 68, 68, 217, 19, 141, 26, 131, 85,
  56, 181, 68, 172, 129, 68, 156, 66, 6, 29, 58, 13, 9, 17, 0, 72, 76, 72,
  24, 116, 225, 0, 210, 162, 80, 180, 212, 68, 2, 226, 17, 20, 192, 32, 210, 216,
  216, 68, 147, 145, 113, 2, 81, 50, 21, 18, 19, 128, 68, 60, 132, 16, 170, 206,
  52, 107, 133, 20, 128, 132, 71, 36, 192, 76, 67, 4, 53, 60, 68, 73, 56, 64,
  98, 49, 0, 47, 99, 145, 40, 68, 113, 17, 35, 148, 68, 33, 51, 29, 19, 150,
  148, 228, 86, 1, 16, 239, 56, 178, 2, 99, 32, 136, 16, 208, 132, 145, 129, 18,
  132, 64, 232, 76, 67, 54, 16, 3, 206, 54, 82, 11, 46, 242, 192, 54, 194, 11,
  33, 48, 17, 98, 101, 13, 156, 228, 231, 16, 4, 224, 12, 52, 68, 73, 40, 142,
  44, 57, 78, 9, 68, 165, 57, 17, 8, 24, 220, 209, 16, 4, 204, 16, 212, 225,
  44, 227, 131, 208, 243, 141, 136, 229, 17, 72, 76, 199, 33, 16, 246, 1, 48, 135,
  128, 81, 68, 9, 57, 0, 68, 182, 50, 76, 228, 68, 204, 117, 18, 200, 229, 13,
  14, 69, 68, 69, 133, 135, 17, 17, 33, 0, 22, 32, 12, 194, 13, 33, 36, 209,
  1, 50, 14, 54, 195, 148, 76, 123, 192, 24, 73, 13, 76, 68, 111, 68, 224, 64,
  4, 182, 47, 56, 131, 83, 200, 64, 19, 180, 4, 212, 68, 2, 241, 0, 33, 37,
  1, 24, 135, 0, 178, 196, 52, 97, 47, 1, 36, 160, 60, 242, 216, 176, 2, 11,
  209, 37, 0, 44, 182, 44, 33, 124, 206, 80, 97, 226, 44, 64, 17, 45, 137, 145,
  57, 105, 64, 9, 51, 145, 201, 48, 19, 18, 179, 130, 0, 185, 148, 98, 64, 18,
  79, 32, 21, 19, 35, 148, 76, 124, 130, 16, 209, 44, 57, 49, 196, 70, 32, 17,
  16, 68, 112, 80, 128, 138, 45, 136, 132, 53, 52, 64, 46, 80, 2, 18, 128, 132,
  128, 19, 149, 18, 17, 24, 56, 208, 239, 32, 36, 212, 68, 75, 68, 77, 99, 145,
  42, 192, 13, 0, 97, 12, 16, 212, 232, 52, 50, 21, 32, 53, 0, 46, 80, 13,
  200, 134, 68, 200, 241, 4, 14, 21, 18, 99, 33, 17, 32, 229, 18, 184, 32, 148,
  70, 0, 195, 196, 64, 3, 99, 34, 6, 54, 35, 139, 44, 64, 147, 32, 227, 107,
  33, 36, 224, 60, 244, 78, 0, 33, 226, 28, 4, 70, 19, 5, 0, 44]

/-- Packed static dictionary `TC_DICT_EN_1024` (TextCodec.go lines 89-604), part 5. -/
def tcDictPacked5 : List ℕ := [
  132, 216, 189, 17, 18, 73, 68, 68, 212, 228, 196, 180, 228, 196, 188, 4, 83, 196,
  64, 11, 216, 64, 98, 81, 20, 68, 53, 56, 196, 76, 68, 76, 32, 209, 51, 69,
  65, 50, 0, 61, 135, 1, 49, 21, 17, 24, 81, 16, 2, 182, 57, 20, 88, 137,
  67, 239, 1, 20, 200, 9, 66, 192, 68, 182, 32, 48, 229, 13, 78, 0, 72, 44,
  132, 216, 144, 4, 241, 16, 35, 134, 52, 134, 68, 200, 132, 226, 28, 4, 64, 9,
  49, 17, 200, 227, 4, 4, 224, 216, 172, 228, 146, 140, 65, 145, 16, 73, 5, 20,
  64, 147, 129, 52, 192, 8, 172, 147, 0, 81, 108, 32, 48, 203, 19, 49, 11, 17,
  82, 18, 32, 227, 118, 29, 138, 196, 24, 2, 226, 0, 242, 19, 0, 188, 209, 0,
  49, 36, 44, 64, 147, 32, 227, 100, 84, 68, 88, 4, 224, 216, 141, 19, 143, 176,
  2, 78, 71, 82, 4, 91, 36, 192, 52, 48, 17, 14, 18, 11, 46, 67, 15, 44,
  230, 4, 18, 50, 18, 9, 68, 146, 32, 227, 110, 60, 243, 145, 77, 67, 72, 77,
  136, 13, 0, 182, 18, 33, 44, 196, 55, 37, 6, 24, 68, 147, 172, 5, 152, 17,
  25, 212, 72, 16, 13, 15, 33, 2, 76, 131, 141, 132, 64, 142, 48, 76, 138, 32,
  178, 242, 33, 36, 196, 71, 36, 216, 44, 72, 145, 32, 193, 47, 68, 225, 145, 0,
  200, 142, 48, 240, 17, 18, 32, 15, 176, 132, 146, 132, 0, 242, 57, 20, 243, 68,
  2, 13, 32, 209, 164, 1, 38, 45, 16, 4, 113, 16, 98, 14, 55, 36, 209, 1,
  49, 6, 98, 245, 17, 60, 228, 132, 188, 68, 69, 57, 19, 51, 16, 33, 205, 56,
  179, 134, 98, 64, 142, 52, 227, 8, 10, 21, 3, 24, 68, 228, 92, 3, 15, 44,
  72, 135, 16, 34, 164, 53, 82, 17, 56, 211, 4, 53, 58, 196, 26, 48, 17, 43,
  49, 17, 51, 16, 19, 28, 68, 107, 1, 65, 135, 153, 65, 18, 74, 32, 17, 172,
  229, 132, 70, 112, 13, 26, 240, 18, 79, 35, 130, 32, 2, 229, 57, 17, 132, 78,
  117, 13, 13, 17, 3, 196, 67, 14, 84, 75, 0, 52, 1, 132, 70, 67, 73, 57,
  137, 23, 0, 36, 203, 98, 50, 4, 148, 131, 64, 46, 192, 24, 4, 73, 196, 0,
  180, 199, 148, 179, 142, 70, 33, 192, 52, 97, 43, 1, 139, 206, 57, 25, 84, 54,
  68, 147, 0, 18, 200, 72, 124, 209, 32, 2, 242, 61, 18, 13, 26, 50, 13, 52,
  68, 97, 32, 108, 199, 0, 210, 175, 68, 228, 196, 9, 56, 21, 56, 128, 232, 48,
  1, 136, 52, 76, 206, 52, 129, 135, 79, 36, 192, 70, 4, 76, 148, 131, 72, 72,
  123, 20, 72, 128, 174, 88, 209, 17, 137, 22, 32, 69, 59, 209, 33, 80, 19, 18,
  228, 199, 17, 20, 178, 32, 195, 203, 18, 243, 143, 80, 176, 17, 196, 65, 75, 16,
  36, 228, 72, 241, 2, 32, 2, 203, 99, 35, 0, 44, 186, 200, 24, 116, 236, 17,
  36, 128, 24, 76, 147, 16, 250, 132, 98, 241, 0, 8, 75, 209, 56, 100, 68, 73,
  40, 64, 55, 34, 3, 18, 100, 68, 1, 57, 72, 94, 131, 83, 17, 21, 72, 17,
  107, 0, 52, 1, 132, 180, 4, 200, 56, 208, 11, 148, 132, 135, 172, 228, 132, 136,
  3, 4, 68, 8, 200, 72, 37, 18, 74, 68, 20, 0, 189, 132, 32, 97, 211, 188,
  68, 69, 57, 19, 0, 52, 33, 50, 17, 81, 13, 216, 4, 196, 70, 244, 78, 13,
  64, 147, 32, 227, 111, 17, 20, 142, 52, 2, 226, 16, 178, 239, 57, 97, 17, 145,
  81, 13, 32, 209, 162, 56, 179, 145, 160, 212, 136, 12, 72, 64, 71, 67, 72, 78,
  177, 18, 74, 0, 212, 45, 61, 136, 12, 76, 64, 52, 97, 44, 16, 212, 200, 56,
  216, 196, 16, 249, 3, 24, 76, 147, 68, 227, 70, 156, 4, 67, 205, 19]

/-- Packed static dictionary `TC_DICT_EN_1024` (TextCodec.go lines 89-604), part 6. -/
def tcDictPacked6 : List ℕ := [
  148, 4, 177, 45, 16, 33, 18, 72, 4, 88, 200, 1, 68, 136, 227, 12, 56, 217,
  68, 1, 25, 64, 48, 130, 216, 200, 64, 35, 68, 64, 12, 136, 227, 69, 17, 17,
  13, 8, 76, 68, 60, 182, 47, 68, 227, 196, 69, 54, 44, 16, 68, 200, 52, 104,
  11, 88, 6, 18, 201, 53, 5, 22, 1, 132, 52, 38, 35, 16, 4, 199, 153, 19,
  150, 76, 124, 132, 44, 188, 142, 44, 50, 4, 70, 0, 147, 156, 64, 21, 99, 97,
  19, 132, 1, 172, 1, 20, 72, 0, 97, 35, 16, 0, 242, 32, 209, 177, 33, 33,
  35, 16, 32, 3, 19, 97, 206, 50, 82, 6, 81, 17, 47, 56, 178, 2, 18, 19,
  131, 98, 192, 2, 28, 131, 68, 136, 4, 196, 24, 228, 88, 128, 113, 0, 14, 84,
  78, 53, 56, 128, 68, 75, 145, 12, 68, 113, 16, 2, 200, 77, 139, 192, 69, 51,
  68, 71, 128, 17, 14, 17, 0, 79, 82, 14, 44, 67, 66, 19, 51, 147, 0, 184,
  196, 20, 67, 82, 19, 100, 72, 76, 72, 142, 53, 37, 12, 17, 24, 132, 53, 49,
  17, 153, 19, 148, 63, 49, 206, 80, 97, 211, 176, 224, 196, 68, 220, 192, 72, 168,
  142, 0, 33, 241, 16, 4, 142, 54, 1, 132, 148, 131, 70, 17, 28, 143, 16, 34,
  5, 32, 40, 142, 52, 209, 2, 76, 131, 141, 216, 132, 135, 196, 68, 143, 56, 212,
  132, 189, 17, 19, 77, 139, 14, 84, 67, 4, 53, 56, 128, 68, 58, 206, 26, 241,
  13, 201, 67, 51, 68, 65, 36, 53, 50, 17, 18, 34, 19, 33, 145, 13, 204, 116,
  78, 80, 97, 206, 81, 59, 196, 79, 34, 12, 32, 176, 17, 212, 128, 147, 32, 203,
  68, 89, 35, 192, 60, 68, 115, 29, 17, 0, 78, 34, 192, 73, 44, 135, 0, 161,
  50, 57, 68, 66, 18, 0, 130, 57, 67, 83, 188, 2, 13, 148, 2, 203, 196, 128,
  135, 188, 228, 146, 32, 18, 196, 128, 32, 132, 61, 60, 142, 44, 128, 243, 68, 5,
  68, 47, 48, 11, 43, 34, 152, 137, 17, 0, 76, 75, 78, 52, 75, 203, 16, 212,
  216, 188, 68, 72, 56, 56, 196, 20, 131, 68, 180, 228, 76, 0, 188, 68, 84, 64,
  11, 141, 18, 13, 42, 5, 19, 28, 228, 114, 17, 21, 68, 180, 3, 4, 176, 227,
  4, 53, 56, 6, 16, 212, 227, 56, 37, 12, 16, 212, 224, 9, 50, 21, 33, 54,
  32, 53, 133, 128, 98, 1, 81, 0, 128, 243, 96, 241, 32, 9, 50, 21, 19, 52,
  64, 32, 218, 13, 76, 68, 68, 73, 50, 13, 27, 16, 3, 32, 232, 192, 52, 97,
  17, 152, 67, 68, 68, 4, 200, 56, 218, 196, 0, 88, 142, 61, 139, 0, 76, 33,
  226, 44, 2, 12, 128, 214, 14, 52, 76, 142, 21, 53, 128, 68, 75, 192, 69, 54,
  35, 17, 82, 2, 18, 35, 131, 18, 176, 13, 25, 64, 6, 18, 178, 13, 42, 115,
  150, 17, 81, 17, 136, 227, 69, 33, 19, 34, 56, 195, 4, 53, 56, 136, 77, 136,
  13, 97, 97, 196, 68, 76, 142, 48, 69, 135, 17, 17, 35, 16, 16, 19, 18, 52,
  72, 84, 73, 200, 24, 113, 17, 132, 64, 20, 76, 129, 84, 46, 227, 75, 32, 209,
  54, 56, 192, 13, 189, 18, 14, 68, 132, 216, 205, 16, 3, 33, 50, 14, 52, 2,
  229, 57, 68, 101, 32, 208, 13, 8, 128, 11, 121, 231, 158]

/-- The full packed dictionary: 4107 bytes, 6-bit symbols, three bytes to four symbols. -/
def tcDictPacked : List ℕ :=
  tcDictPacked1 ++ tcDictPacked2 ++ tcDictPacked3 ++ tcDictPacked4 ++ tcDictPacked5 ++ tcDictPacked6

/-- A dictionary entry (`dictEntry`, TextCodec.go lines 50-54): the full word
hash (32-bit pattern), the packed `length << 24 | index` field, and the word
bytes (`none` for Go's nil `ptr`). -/
structure TCDictEntry where
  hash : ℕ
  data : ℕ
  ptr : Option (List ℕ)

/-- `isLowerCase` (line 796). -/
def isLowerCase (v : ℕ) : Bool := 97 ≤ v && v ≤ 122

/-- `isUpperCase` (line 800). -/
def isUpperCase (v : ℕ) : Bool := 65 ≤ v && v ≤ 90

/-- `isText` (line 792). -/
def isTextByte (v : ℕ) : Bool := isLowerCase v || isUpperCase v

/-- `isDelimiter` via the table built by `initDelimiterChars`
(lines 729-764). -/
def isDelimiter (v : ℕ) : Bool :=
  (32 ≤ v && v ≤ 47) || (58 ≤ v && v ≤ 63) ||
  v == 10 || v == 13 || v == 9 || v == 95 || v == 124 ||
  v == 123 || v == 125 || v == 91 || v == 93

/-- The four 6-bit symbols of one packed 24-bit group, as emitted by
`unpackDictionary32` (lines 818-837): a symbol `≥ 32` first emits a space,
then its low five bits emit a letter when `≤ 26`. -/
def tcUnpackGroup (val : ℕ) : List ℕ :=
  ((List.range 4).map (fun k => (val >>> (18 - 6 * k)) &&& 0x3F)).flatMap
    (fun c => (if c ≥ 32 then [32] else []) ++ (if c &&& 0x1F ≤ 26 then [(c &&& 0x1F) + 97] else []))

/-- The triple-by-triple scan of `unpackDictionary32` (lines 815-838);
a trailing partial triple emits nothing, as in the source. -/
def tcUnpackAll : List ℕ → List ℕ
  | b0 :: b1 :: b2 :: rest => tcUnpackGroup ((b0 <<< 16) ||| (b1 <<< 8) ||| b2) ++ tcUnpackAll rest
  | _ => []

/-- `unpackDictionary32` (lines 809-842): unpack, then drop the synthetic
leading symbol and close with a space (the source writes a final space at
`buf[d]` and returns `buf[1:d+1]`). -/
def tcUnpacked : List ℕ := (tcUnpackAll tcDictPacked).drop 1 ++ [32]

/-- One step of the word hash `h = h*TC_HASH1 ^ int32(c)*TC_HASH2` in 32-bit
arithmetic (`TC_HASH1 = 0x7FEB352D`, `TC_HASH2 = 0x846CA68B`). -/
def tcHashStep (h c : ℕ) : ℕ := mul32 h 2146121005 ^^^ mul32 c 2221713035

/-- The word hash over a list of characters starting from `h0`. -/
def tcWordHash (h0 : ℕ) : List ℕ → ℕ
  | [] => h0
  | c :: cs => tcWordHash (tcHashStep h0 c) cs

/-- The scan of `createDictionary` (lines 767-790) over the unpacked symbol
stream: letters accumulate into the hash, a delimiter after at least two
letters records an entry `(words[anchor:i], h, (i-anchor) << 24 | nbWords)`.
`words` is the full symbol list (for the `ptr` slices), `i` the position of
`rest` in it. -/
def tcBuildDict (words : List ℕ) (maxWords : ℕ) :
    List ℕ → ℕ → ℕ → ℕ → ℕ → List TCDictEntry
  | [], _, _, _, _ => []
  | cur :: rest, i, anchor, h, nbWords =>
    if nbWords ≥ maxWords then []
    else if isTextByte cur then
      tcBuildDict words maxWords rest (i + 1) anchor (tcHashStep h cur) nbWords
    else if isDelimiter cur ∧ i ≥ anchor + 1 then
      ⟨h, ((i - anchor) <<< 24) ||| nbWords, some ((words.drop anchor).take (i - anchor))⟩ ::
        tcBuildDict words maxWords rest (i + 1) (i + 1) 2146121005 (nbWords + 1)
    else
      tcBuildDict words maxWords rest (i + 1) (i + 1) 2146121005 nbWords

/-- The static dictionary entries (`TC_STATIC_DICT_WORDS` entries of
`TC_STATIC_DICTIONARY`, lines 80-82). -/
def tcStaticEntries : List TCDictEntry :=
  tcBuildDict tcUnpacked 1024 tcUnpacked 0 0 2146121005 0

/-- `TC_STATIC_DICT_WORDS`: how many words `createDictionary` produced. -/
def tcStaticDictWords : ℕ := tcStaticEntries.length

/-- `staticDictSize` of `newTextCodec1` (line 936): the static words plus the
two sentinel entries for the escape tokens. -/
def tcStaticDictSize : ℕ := tcStaticDictWords + 2

/-- `dictList` as it stands at the start of `Forward`/`Inverse` of a
`newTextCodec1` codec, i.e. after construction (lines 917-937) and `reset`
(lines 994-1009): the static entries, the two escape-token sentinels, and
pre-allocated empty entries `⟨0, i, none⟩` beyond `staticDictSize`. -/
def tcDictListInit : ℕ → TCDictEntry := fun i =>
  if i < tcStaticDictWords then tcStaticEntries.getD i ⟨0, 0, none⟩
  else if i = tcStaticDictWords then ⟨0, (1 <<< 24) ||| tcStaticDictWords, some [14]⟩
  else if i = tcStaticDictWords + 1 then ⟨0, (1 <<< 24) ||| (tcStaticDictWords + 1), some [15]⟩
  else ⟨0, i, none⟩

/-- `dictMap` after `reset` (lines 995-1003): the first `staticDictSize`
entries of `dictList` inserted in order under `hash & hashMask`
(`hashMask = 2^24 - 1` for `newTextCodec1`), the newest insertion first. -/
def tcDictMapInit : List (ℕ × Option TCDictEntry) :=
  ((List.range tcStaticDictSize).map
    (fun i => ((tcDictListInit i).hash &&& 16777215, some (tcDictListInit i)))).reverse

/-- Association-list lookup for `dictMap`: a stored `none` is Go's nil. -/
def tcMapGet : List (ℕ × Option TCDictEntry) → ℕ → Option TCDictEntry
  | [], _ => none
  | (k, v) :: rest, key => if k = key then v else tcMapGet rest key

/-- Byte frequency in a block: the `freqs0` histogram that `computeStats`
(lines 608-637) accumulates with its 4-way unrolled counting loop. -/
def tcFreq (block : List ℕ) (b : ℕ) : ℕ := block.countP (· == b)

/-- Adjacent-pair frequency `freqs1[a][b]` of `computeStats`: the previous
byte starts as 0, and the unrolled loop counts every `(prv, cur)` pair. -/
def tcPairFreq (block : List ℕ) (a b : ℕ) : ℕ :=
  (List.zip (0 :: block) block).countP (fun p => p.1 == a && p.2 == b)

/-- `computeStats` (lines 607-717): the 8-bit status
(not-text `0x80` | almost-full-ASCII `0x08` | full-ASCII `0x04` |
XML/HTML `0x02` | CRLF `0x01`). -/
def computeStats (block : List ℕ) : ℕ :=
  let length := block.length
  let nbTextChars := ((List.range' 32 96).filter (fun i => isTextByte i)).foldl
      (fun acc i => acc + tcFreq block i) 0
  if 2 * nbTextChars < length then 128
  else
    let nbBinChars := (List.range' 128 128).foldl (fun acc i => acc + tcFreq block i) 0
    if 4 * nbBinChars > length then 128
    else
      let res0 : ℕ := if nbBinChars = 0 then 4 else if nbBinChars ≤ length / 100 then 8 else 0
      let res1 : ℕ :=
        if nbBinChars ≤ length - length / 10 then
          let f1 := tcFreq block 60
          let f2 := tcFreq block 62
          let f3 := tcPairFreq block 38 97 + tcPairFreq block 38 103 +
                    tcPairFreq block 38 108 + tcPairFreq block 38 113
          let minFreq := max ((length - nbBinChars) >>> 9) 2
          if f1 ≥ minFreq ∧ f2 ≥ minFreq ∧ f3 > 0 then
            if f1 < f2 then (if f1 ≥ f2 - f2 / 100 then 2 else 0)
            else if f2 < f1 then (if f2 ≥ f1 - f1 / 100 then 2 else 0)
            else 2
          else 0
        else 0
      let res2 : ℕ :=
        if tcFreq block 13 ≠ 0 ∧ tcFreq block 13 = tcFreq block 10 ∧
            (List.range 256).all (fun i => i == 10 || tcPairFreq block 13 i == 0) then 1
        else 0
      res0 ||| res1 ||| res2

/-- `emitWordIndex1` (lines 1259-1276): the 1, 2 or 3 varint bytes of a word
index (5 + 7 + 7 bits with sentinel high bits). -/
def tcEmitWordIndex1 (val : ℕ) : List ℕ :=
  if val ≥ 128 then
    if val ≥ 16384 then
      [(0xE0 ||| (val >>> 14)) % 256, (0x80 ||| (val >>> 7)) % 256, 0x7F &&& val]
    else [(0x80 ||| (val >>> 7)) % 256, 0x7F &&& val]
  else [val]

/-- `textCodec1.emitSymbols` (lines 1205-1257) on a destination slice of
length `cap`, starting at relative index `dstIdx`: `none` is the source's
`-1` (output buffer too small), otherwise the emitted bytes. -/
def tcEmitSymbols (isCRLF : Bool) (staticDictSize cap : ℕ) : List ℕ → ℕ → Option (List ℕ)
  | [], _ => some []
  | cur :: rest, dstIdx =>
    if dstIdx ≥ cap then none
    else if cur = 15 ∨ cur = 14 then
      -- escape token found in the raw text: emit TOKEN1 plus the sentinel index
      let idx := if cur = 15 then staticDictSize - 1 else staticDictSize - 2
      let lenIdx := if idx ≥ 16384 then 3 else if idx < 128 then 1 else 2
      if dstIdx + 1 + lenIdx ≥ cap then none
      else
        match tcEmitSymbols isCRLF staticDictSize cap rest (dstIdx + 1 + lenIdx) with
        | none => none
        | some bs => some (15 :: tcEmitWordIndex1 idx ++ bs)
    else if cur = 13 then
      if isCRLF then tcEmitSymbols isCRLF staticDictSize cap rest dstIdx
      else
        match tcEmitSymbols isCRLF staticDictSize cap rest (dstIdx + 1) with
        | none => none
        | some bs => some (13 :: bs)
    else
      match tcEmitSymbols isCRLF staticDictSize cap rest (dstIdx + 1) with
      | none => none
      | some bs => some (cur :: bs)

/-- The dictionary-insertion step shared by `textCodec1.Forward`
(lines 1112-1135) and `Inverse` (lines 1328-1351), after its guard: evict
the slot's old hash, overwrite the slot, insert under `h1`, bump `words`,
and expand (or wrap `words`) when the dictionary is full.  Returns
`(dictMap, dictList, dictSize, words)`. -/
def tcInsertWord (map : List (ℕ × Option TCDictEntry)) (list : ℕ → TCDictEntry)
    (dictSize words h1 length : ℕ) (wordBytes : List ℕ) :
    List (ℕ × Option TCDictEntry) × (ℕ → TCDictEntry) × ℕ × ℕ :=
  let pe := list words
  let evict := pe.data &&& 0xFFFFFF ≥ tcStaticDictSize
  let map1 := if evict then (pe.hash &&& 16777215, none) :: map else map
  let e' := if evict then (⟨h1, (length <<< 24) ||| words, some wordBytes⟩ : TCDictEntry) else pe
  let list1 := if evict then (fun j => if j = words then e' else list j) else list
  let map2 := (h1 &&& 16777215, some e') :: map1
  let words1 := words + 1
  if words1 ≥ dictSize then
    if dictSize ≥ 524288 then (map2, list1, dictSize, tcStaticDictSize)
    else
      (map2, fun j => if dictSize ≤ j ∧ j < 2 * dictSize then ⟨0, j, none⟩ else list1 j,
        2 * dictSize, words1)
  else (map2, list1, dictSize, words1)

/-- State threaded through the `textCodec1.Forward` main loop. -/
structure TCFwdSt where
  srcIdx : ℕ
  dstIdx : ℕ
  emitAnchor : ℕ
  delimAnchor : ℤ
  dictMap : List (ℕ × Option TCDictEntry)
  dictList : ℕ → TCDictEntry
  dictSize : ℕ
  words : ℕ
  out : List ℕ
  err : Option String

/-- Main loop of `textCodec1.Forward` (lines 1056-1170).  `dstEnd` is
`MaxEncodedLen count = count` and `dstEnd4 = dstEnd - 4`. -/
def tcFwdLoop (src : List ℕ) (isCRLF : Bool) (srcEnd dstEnd : ℕ) :
    ℕ → TCFwdSt → TCFwdSt
  | 0, st => st
  | fuel + 1, st =>
    if st.srcIdx < srcEnd then
      let cur := src.getD st.srcIdx 0
      if isTextByte cur then
        tcFwdLoop src isCRLF srcEnd dstEnd fuel { st with srcIdx := st.srcIdx + 1 }
      else
        let st1 :=
          if (st.srcIdx : ℤ) > st.delimAnchor + 2 ∧ isDelimiter cur then
            -- a word of at least two letters ended at a delimiter
            let start := (st.delimAnchor + 1).toNat
            let val := src.getD start 0
            let middle := (src.drop (start + 1)).take (st.srcIdx - start - 1)
            let h1 := tcWordHash 2146121005 (val :: middle)
            let val2 := if isUpperCase val then add32 val 32 else sub32 val 32
            let h2 := tcWordHash 2146121005 (val2 :: middle)
            let length := st.srcIdx - start
            let pe1raw := tcMapGet st.dictMap (h1 &&& 16777215)
            let pe1 := match pe1raw with
              | some e => if e.hash ≠ h1 ∨ e.data >>> 24 ≠ length then none else some e
              | none => none
            let peA := match pe1 with
              | some e => some e
              | none =>
                match tcMapGet st.dictMap (h2 &&& 16777215) with
                | some e2 => if e2.data >>> 24 = length ∧ e2.hash = h2 then some e2 else none
                | none => none
            let pe := match peA with
              | some e =>
                if ((e.ptr.getD []).drop 1).take (length - 1) =
                    (src.drop (start + 1)).take (length - 1) then some e else none
              | none => none
            match pe with
            | none =>
              -- word not found: add or replace
              if ((length > 3) ∨ (length > 2 ∧ st.words < 16384)) ∧ length < 32 then
                match tcInsertWord st.dictMap st.dictList st.dictSize st.words h1 length
                    ((src.drop start).take length) with
                | (m, l, ds, w) =>
                  { st with dictMap := m, dictList := l, dictSize := ds, words := w }
              else st
            | some e =>
              -- word found: flush the pending symbols, emit token and index
              let skipSpace := (st.emitAnchor : ℤ) = st.delimAnchor ∧
                src.getD st.delimAnchor.toNat 0 = 32
              let flushed : Option (ℕ × List ℕ) :=
                if ¬ skipSpace then
                  let syms := (src.drop st.emitAnchor).take ((st.delimAnchor + 1).toNat - st.emitAnchor)
                  match tcEmitSymbols isCRLF tcStaticDictSize (dstEnd - st.dstIdx) syms 0 with
                  | none => none
                  | some bs => some (st.dstIdx + bs.length, st.out ++ bs)
                else some (st.dstIdx, st.out)
              match flushed with
              | none => { st with err := some "Text transform failed. Output buffer too small" }
              | some (d1, out1) =>
                if d1 ≥ dstEnd - 4 then
                  { st with
                    dstIdx := d1
                    out := out1
                    err := some "Text transform failed. Output buffer too small" }
                else
                  let token : ℕ := if pe1.isSome then 15 else 14
                  let idxBytes := tcEmitWordIndex1 (e.data &&& 0xFFFFFF)
                  { st with
                    dstIdx := d1 + 1 + idxBytes.length
                    out := out1 ++ token :: idxBytes
                    emitAnchor := (st.delimAnchor + 1).toNat + (e.data >>> 24) }
          else st
        if st1.err ≠ none then st1
        else
          tcFwdLoop src isCRLF srcEnd dstEnd fuel
            { st1 with delimAnchor := (st.srcIdx : ℤ), srcIdx := st.srcIdx + 1 }
    else st

/-- `textCodec1.Forward` (lines 1011-1188) of a `newTextCodec1` codec
(dictionary capacity 65536, 24-bit hash mask). -/
def tcForward (src : List ℕ) (dstLen : ℕ) : GoRes :=
  let count := src.length
  if dstLen < count then .ret 0 0 (some "Output buffer is too small") []
  else
    let mode := computeStats src
    if mode &&& 128 ≠ 0 then .ret 0 0 (some "Input is not text, skipping") []
    else
      let isCRLF := mode &&& 1 ≠ 0
      let k := (src.takeWhile (· == 32)).length   -- leading spaces copied through
      if k = count then .crash                    -- src[srcIdx] read past the end
      else
        let delimAnchor : ℤ := if isTextByte (src.getD k 0) then (k : ℤ) - 1 else (k : ℤ)
        let st := tcFwdLoop src isCRLF count count count
          { srcIdx := k
            dstIdx := 1 + k
            emitAnchor := k
            delimAnchor := delimAnchor
            dictMap := tcDictMapInit
            dictList := tcDictListInit
            dictSize := 65536
            words := tcStaticDictSize
            out := mode :: List.replicate k 32
            err := none }
        match st.err with
        | some e => .ret st.srcIdx st.dstIdx (some e) st.out
        | none =>
          -- emit the symbols after the last word reference (lines 1172-1181)
          let syms := (src.drop st.emitAnchor).take (count - st.emitAnchor)
          match tcEmitSymbols isCRLF tcStaticDictSize (count - st.dstIdx) syms 0 with
          | none =>
            .ret st.srcIdx st.dstIdx (some "Text transform failed. Output buffer too small") st.out
          | some bs => .ret st.srcIdx (st.dstIdx + bs.length) none (st.out ++ bs)

/-- State threaded through the `textCodec1.Inverse` main loop. -/
structure TCInvSt where
  srcIdx : ℕ
  dstIdx : ℕ
  delimAnchor : ℤ
  wordRun : Bool
  dictMap : List (ℕ × Option TCDictEntry)
  dictList : ℕ → TCDictEntry
  dictSize : ℕ
  words : ℕ
  out : List ℕ
  err : Option String
  stop : Bool

/-- Main loop of `textCodec1.Inverse` (lines 1298-1433).  `none` models a Go
panic: an out-of-range varint read, or the unchecked second write of the
re-inserted CR.  `stop` marks the `break` on an out-of-range word index,
which leaves the loop with no error set. -/
def tcInvLoop (src : List ℕ) (isCRLF : Bool) (srcEnd dstEnd : ℕ) :
    ℕ → TCInvSt → Option TCInvSt
  | 0, st => some st
  | fuel + 1, st =>
    if st.srcIdx < srcEnd ∧ st.dstIdx < dstEnd then
      let cur := src.getD st.srcIdx 0
      if isTextByte cur then
        tcInvLoop src isCRLF srcEnd dstEnd fuel
          { st with
            srcIdx := st.srcIdx + 1
            dstIdx := st.dstIdx + 1
            out := st.out ++ [cur] }
      else
        -- rebuild the dynamic dictionary from the decoded stream
        let st1 :=
          if (st.srcIdx : ℤ) > st.delimAnchor + 2 ∧ isDelimiter cur then
            let start := (st.delimAnchor + 1).toNat
            let chars := (src.drop start).take (st.srcIdx - start)
            let h1 := tcWordHash 2146121005 chars
            let length := st.srcIdx - start
            let pe := match tcMapGet st.dictMap (h1 &&& 16777215) with
              | some e =>
                if e.hash ≠ h1 ∨ e.data >>> 24 ≠ length then none
                else if ((e.ptr.getD []).drop 1).take (length - 1) =
                    (src.drop (start + 1)).take (length - 1) then some e
                else none
              | none => none
            match pe with
            | none =>
              if ((length > 3) ∨ (length > 2 ∧ st.words < 16384)) ∧ length < 32 then
                match tcInsertWord st.dictMap st.dictList st.dictSize st.words h1 length
                    ((src.drop start).take length) with
                | (m, l, ds, w) =>
                  { st with dictMap := m, dictList := l, dictSize := ds, words := w }
              else st
            | some _ => st
          else st
        let s1 := st.srcIdx + 1
        if cur = 15 ∨ cur = 14 then
          -- escaped word reference: read the varint index (reads may panic)
          if s1 ≥ srcEnd then none
          else
            let i0 := src.getD s1 0
            let readIdx : Option (ℕ × ℕ) :=      -- (index, next srcIdx)
              if i0 ≥ 128 then
                if s1 + 1 ≥ srcEnd then none
                else
                  let i1 := src.getD (s1 + 1) 0
                  if i1 ≥ 128 then
                    if s1 + 2 ≥ srcEnd then none
                    else some (((((i0 &&& 0x7F) &&& 0x1F) <<< 7 ||| (i1 &&& 0x7F)) <<< 7) |||
                      (src.getD (s1 + 2) 0 &&& 0x7F), s1 + 3)
                  else some (((i0 &&& 0x7F) <<< 7) ||| (i1 &&& 0x7F), s1 + 2)
              else some (i0, s1 + 1)
            match readIdx with
            | none => none
            | some (idx, s2) =>
              if i0 ≥ 128 ∧ idx ≥ st1.dictSize then
                some { st1 with srcIdx := s2, stop := true }
              else
                let pe := st1.dictList idx
                let length := pe.data >>> 24
                match pe.ptr with
                | none =>
                  some { st1 with srcIdx := s2, err := some "Invalid input data" }
                | some buf =>
                  if st.dstIdx + length ≥ dstEnd then
                    some { st1 with srcIdx := s2, err := some "Invalid input data" }
                  else
                    let spc : List ℕ := if st.wordRun ∧ length > 1 then [32] else []
                    let body : List ℕ :=
                      if cur ≠ 14 then buf.take length
                      else
                        (if isUpperCase (buf.getD 0 0) then buf.getD 0 0 + 32
                          else (buf.getD 0 0 + 224) % 256) :: (buf.drop 1).take (length - 1)
                    tcInvLoop src isCRLF srcEnd dstEnd fuel
                      { st1 with
                        srcIdx := s2
                        dstIdx := st.dstIdx + spc.length + length
                        out := st.out ++ spc ++ body
                        wordRun := length > 1
                        delimAnchor := if length > 1 then (s2 : ℤ) else (s2 : ℤ) - 1 }
        else
          -- plain symbol; re-insert CR before LF when the block was CRLF
          if isCRLF ∧ cur = 10 then
            if st.dstIdx + 1 ≥ dstEnd then none   -- the second write is unchecked
            else
              tcInvLoop src isCRLF srcEnd dstEnd fuel
                { st1 with
                  srcIdx := s1
                  dstIdx := st.dstIdx + 2
                  out := st.out ++ [13, cur]
                  wordRun := false
                  delimAnchor := (s1 : ℤ) - 1 }
          else
            tcInvLoop src isCRLF srcEnd dstEnd fuel
              { st1 with
                srcIdx := s1
                dstIdx := st.dstIdx + 1
                out := st.out ++ [cur]
                wordRun := false
                delimAnchor := (s1 : ℤ) - 1 }
    else some st

/-- `textCodec1.Inverse` (lines 1278-1440) of a `newTextCodec1` codec. -/
def tcInverse (src : List ℕ) (dstLen : ℕ) : GoRes :=
  if src.length = 0 then .crash       -- isText(src[0]) reads out of range
  else
    let srcEnd := src.length
    let delimAnchor : ℤ := if isTextByte (src.getD 0 0) then -1 else 0
    let isCRLF := src.getD 0 0 &&& 1 ≠ 0
    match tcInvLoop src isCRLF srcEnd dstLen srcEnd
        { srcIdx := 1
          dstIdx := 0
          delimAnchor := delimAnchor
          wordRun := false
          dictMap := tcDictMapInit
          dictList := tcDictListInit
          dictSize := 65536
          words := tcStaticDictSize
          out := []
          err := none
          stop := false } with
    | none => .crash
    | some st =>
      let err' := if st.err = none ∧ st.srcIdx ≠ srcEnd then
          some "Text transform failed. Source index mismatch" else st.err
      .ret st.srcIdx st.dstIdx err' st.out

/-- `TextCodec.Forward` (lines 874-891): the wrapper checks the empty input
first, then evaluates `&src[0] == &dst[0]`, then panics on blocks over 1 GiB,
then delegates to `textCodec1.Forward`. -/
def textCodecForward (src : List ℕ) (dstLen : ℕ) (aliased : Bool) : GoRes :=
  if src.length = 0 then .ret 0 0 none []
  else if dstLen = 0 then .crash
  else if aliased then .ret 0 0 (some "Input and output buffers cannot be equal") []
  else if src.length > 2 ^ 30 then .crash   -- the wrapper panics on oversized blocks
  else tcForward src dstLen

/-- The failing round-trip input for the text codec: letter pairs separated
by digits, one real CR+LF pair mid-stream, and a final LF+CR.  The block is
classified as text with the CRLF flag set (the trailing CR contributes no
byte pair, so the `freqs1[CR][i]` scan does not see it), the forward
transform then drops both CRs, and the inverse re-inserts a CR before both
LFs, moving the final CR before the final LF. -/
def tcB : List ℕ := [97, 98, 48, 97, 98, 48, 13, 10, 97, 98, 48, 97, 98, 48, 10, 13]

/-- What the inverse actually returns on the forward output of `tcB`. -/
def tcBRound : List ℕ := [97, 98, 48, 97, 98, 48, 13, 10, 97, 98, 48, 97, 98, 48, 13, 10]

/-- The failing round-trip input for RLT: five `1` bytes (a run), every byte
value `2..255` once, and a final `0`.  All 256 byte values occur, so the
escape (the least frequent byte, `0`) appears in the input — at the very
end, inside the region the forward transform copies raw. -/
def rltB : List ℕ := List.replicate 5 1 ++ List.range' 2 254 ++ [0]

/-! ## TPAQ predictor (the entropy source file src/unnamed/part_000)

`LogisticAdaptiveProbMap` and `kanzi.Squash` are repository code that is not
among the staged sources; they are modelled from the spec (see `apmGet` and
`squashModel`).  Everything else is translated from part_000.  All `int32`
fields are held as 32-bit patterns (`ℕ` below `2^32`); signed reads go
through `toS32`, arithmetic shifts through `sar32`. -/

/-- `TPAQ_STATE_TABLE[0]`: next bit-history state on bit 0 (part_000 lines 52-81). -/
def tpaqStateTable0 : List ℕ := [
  1, 3, 143, 4, 5, 6, 7, 8, 9, 10, 11, 12, 13, 14, 15,
  16, 17, 18, 19, 20, 21, 22, 23, 24, 25, 26, 27, 28, 29, 30,
  31, 32, 33, 34, 35, 36, 37, 38, 39, 40, 41, 42, 43, 44, 45,
  46, 47, 48, 49, 50, 51, 52, 47, 54, 55, 56, 57, 58, 59, 60,
  61, 62, 63, 64, 65, 66, 67, 68, 69, 6, 71, 71, 71, 61, 75,
  56, 77, 78, 77, 80, 81, 82, 83, 84, 85, 86, 87, 88, 77, 90,
  91, 92, 80, 94, 95, 96, 97, 98, 99, 90, 101, 94, 103, 101, 102,
  104, 107, 104, 105, 108, 111, 112, 113, 114, 115, 116, 92, 118, 94, 103,
  119, 122, 123, 94, 113, 126, 113, 128, 129, 114, 131, 132, 112, 134, 111,
  134, 110, 134, 134, 128, 128, 142, 143, 115, 113, 142, 128, 148, 149, 79,
  148, 142, 148, 150, 155, 149, 157, 149, 159, 149, 131, 101, 98, 115, 114,
  91, 79, 58, 1, 170, 129, 128, 110, 174, 128, 176, 129, 174, 179, 174,
  176, 141, 157, 179, 185, 157, 187, 188, 168, 151, 191, 192, 188, 187, 172,
  175, 170, 152, 185, 170, 176, 170, 203, 148, 185, 203, 185, 192, 209, 188,
  211, 192, 213, 214, 188, 216, 168, 84, 54, 54, 221, 54, 55, 85, 69,
  63, 56, 86, 58, 230, 231, 57, 229, 56, 224, 54, 54, 66, 58, 54,
  61, 57, 222, 78, 85, 82, 0, 0, 0, 0, 0, 0, 0, 0, 0,
  0]

/-- `TPAQ_STATE_TABLE[1]`: next bit-history state on bit 1 (lines 82-111). -/
def tpaqStateTable1 : List ℕ := [
  2, 163, 169, 163, 165, 89, 245, 217, 245, 245, 233, 244, 227, 74, 221,
  221, 218, 226, 243, 218, 238, 242, 74, 238, 241, 240, 239, 224, 225, 221,
  232, 72, 224, 228, 223, 225, 238, 73, 167, 76, 237, 234, 231, 72, 31,
  63, 225, 237, 236, 235, 53, 234, 53, 234, 229, 219, 229, 233, 232, 228,
  226, 72, 74, 222, 75, 220, 167, 57, 218, 70, 168, 72, 73, 74, 217,
  76, 167, 79, 79, 166, 162, 162, 162, 162, 165, 89, 89, 165, 89, 162,
  93, 93, 93, 161, 100, 93, 93, 93, 93, 93, 161, 102, 120, 104, 105,
  106, 108, 106, 109, 110, 160, 134, 108, 108, 126, 117, 117, 121, 119, 120,
  107, 124, 117, 117, 125, 127, 124, 139, 130, 124, 133, 109, 110, 135, 110,
  136, 137, 138, 127, 140, 141, 145, 144, 124, 125, 146, 147, 151, 125, 150,
  127, 152, 153, 154, 156, 139, 158, 139, 156, 139, 130, 117, 163, 164, 141,
  163, 147, 2, 2, 199, 171, 172, 173, 177, 175, 171, 171, 178, 180, 172,
  181, 182, 183, 184, 186, 178, 189, 181, 181, 190, 193, 182, 182, 194, 195,
  196, 197, 198, 169, 200, 201, 202, 204, 180, 205, 206, 207, 208, 210, 194,
  212, 184, 215, 193, 184, 208, 193, 163, 219, 168, 94, 217, 223, 224, 225,
  76, 227, 217, 229, 219, 79, 86, 165, 217, 214, 225, 216, 216, 234, 75,
  214, 237, 74, 74, 163, 217, 0, 0, 0, 0, 0, 0, 0, 0, 0,
  0]

/-- `TPAQ_STATE_MAP0` (signed 32-bit entries, reproduced verbatim). -/
def tpaqStateMap0 : List ℤ := [
  -119, -120, 169, -476, -484, -386, -737, -881, -874, -712, -848, -679, -559, -794, -1212,
  -782, -1205, -1205, -613, -753, -1169, -1169, -1169, -743, -1155, -732, -720, -1131, -1131, -1131,
  -1131, -1131, -1131, -1131, -1131, -1131, -540, -1108, -1108, -1108, -1108, -1108, -1108, -1108, -1108,
  -1108, -1108, -2047, -2047, -2047, -2047, -2047, -2047, -782, -569, -389, -640, -720, -568, -432,
  -379, -640, -459, -590, -1003, -569, -981, -981, -981, -609, 416, -1648, -245, -416, -152,
  -152, 416, -1017, -1017, -179, -424, -446, -461, -508, -473, -492, -501, -520, -528, -54,
  -395, -405, -404, -94, -232, -274, -288, -319, -354, -379, -105, -141, -63, -113, -18,
  -39, -94, 52, 103, 167, 222, 130, -78, -135, -253, -321, -343, 102, -165, 157,
  -229, 155, -108, -188, 262, 283, 56, 447, 6, -92, 242, 172, 38, 304, 141,
  285, 285, 320, 319, 462, 497, 447, -56, -46, 374, 485, 510, 479, -71, 198,
  475, 549, 559, 584, 586, -196, 712, -185, 673, -161, 237, -63, 48, 127, 248,
  -34, -18, 416, -99, 189, -50, 39, 337, 263, 660, 153, 569, 832, 220, 1,
  318, 246, 660, 660, 732, 416, 732, 1, -660, 246, 660, 1, -416, 732, 262,
  832, 369, 781, 781, 324, 1104, 398, 626, -416, 609, 1018, 1018, 1018, 1648, 732,
  1856, 1, 1856, 416, -569, 1984, -732, -164, 416, 153, -416, -569, -416, 1, -660,
  1, -660, 153, 152, -832, -832, -832, -569, 0, -95, -660, 1, 569, 153, 416,
  -416, 1, 1, -569, 1, -318, 1, 1, 1, 1, 1, 1, 1, 1, 1,
  1]

/-- `TPAQ_STATE_MAP1` (signed 32-bit entries, reproduced verbatim). -/
def tpaqStateMap1 : List ℤ := [
  -10, -436, 401, -521, -623, -689, -736, -812, -812, -900, -865, -891, -1006, -965, -981,
  -916, -946, -976, -1072, -1014, -1058, -1090, -1044, -1030, -1044, -1104, -1009, -1418, -1131, -1131,
  -1269, -1332, -1191, -1169, -1108, -1378, -1367, -1126, -1297, -1085, -1355, -1344, -1169, -1269, -1440,
  -1262, -1332, -2047, -2047, -1984, -2047, -2047, -2047, -225, -402, -556, -502, -746, -609, -647,
  -625, -718, -700, -805, -748, -935, -838, -1053, -787, -806, -269, -1006, -278, -212, -41,
  -399, 137, -984, -998, -219, -455, -524, -556, -564, -577, -592, -610, -690, -650, -140,
  -396, -471, -450, -168, -215, -301, -325, -364, -315, -401, -96, -174, -102, -146, -61,
  -9, 54, 81, 116, 140, 192, 115, -41, -93, -183, -277, -365, 104, -134, 37,
  -80, 181, -111, -184, 194, 317, 63, 394, 105, -92, 299, 166, -17, 333, 131,
  386, 403, 450, 499, 480, 493, 504, 89, -119, 333, 558, 568, 501, -7, -151,
  203, 557, 595, 603, 650, 104, 960, 204, 933, 239, 247, -12, -105, 94, 222,
  -139, 40, 168, -203, 566, -53, 243, 344, 542, 42, 208, 14, 474, 529, 82,
  513, 504, 570, 616, 644, 92, 669, 91, -179, 677, 720, 157, -10, 687, 672,
  750, 686, 830, 787, 683, 723, 780, 783, 9, 842, 816, 885, 901, 1368, 188,
  1356, 178, 1419, 173, -22, 1256, 240, 167, 1, -31, -165, 70, -493, -45, -354,
  -25, -142, 98, -17, -158, -355, -448, -142, -67, -76, -310, -324, -225, -96, 0,
  46, -72, 0, -439, 14, -55, 1, 1, 1, 1, 1, 1, 1, 1, 1,
  1]

/-- `TPAQ_STATE_MAP2` (signed 32-bit entries, reproduced verbatim). -/
def tpaqStateMap2 : List ℤ := [
  -32, -521, 485, -627, -724, -752, -815, -886, -1017, -962, -1022, -984, -1099, -1062, -1090,
  -1062, -1108, -1085, -1248, -1126, -1233, -1104, -1233, -1212, -1285, -1184, -1162, -1309, -1240, -1309,
  -1219, -1390, -1332, -1320, -1262, -1320, -1332, -1320, -1344, -1482, -1367, -1355, -1504, -1390, -1482,
  -1482, -1525, -2047, -2047, -1984, -2047, -2047, -1984, -251, -507, -480, -524, -596, -608, -658,
  -713, -812, -700, -653, -820, -820, -752, -831, -957, -690, -402, -689, -189, -28, -13,
  -312, 119, -930, -973, -212, -459, -523, -513, -584, -545, -593, -628, -631, -688, -33,
  -437, -414, -458, -167, -301, -308, -407, -289, -389, -332, -55, -233, -115, -144, -100,
  -20, 106, 59, 130, 200, 237, 36, -114, -131, -232, -296, -371, 140, -168, 0,
  -16, 199, -125, -182, 238, 310, 29, 423, 41, -176, 317, 96, -14, 377, 123,
  446, 458, 510, 496, 463, 515, 471, -11, -182, 268, 527, 569, 553, -58, -146,
  168, 580, 602, 604, 651, 87, 990, 95, 977, 185, 315, 82, -25, 140, 286,
  -57, 85, 14, -210, 630, -88, 290, 328, 422, -20, 271, -23, 478, 548, 64,
  480, 540, 591, 601, 583, 26, 696, 117, -201, 740, 717, 213, -22, 566, 599,
  716, 709, 764, 740, 707, 790, 871, 925, 3, 969, 990, 990, 1023, 1333, 154,
  1440, 89, 1368, 125, -78, 1403, 128, 100, -88, -20, -250, -140, -164, -14, -175,
  -6, -13, -23, -251, -195, -422, -419, -107, -89, -24, -69, -244, -51, -27, -250,
  0, 1, -145, 74, 12, 11, 1, 1, 1, 1, 1, 1, 1, 1, 1,
  1]

/-- `TPAQ_STATE_MAP3` (signed 32-bit entries, reproduced verbatim). -/
def tpaqStateMap3 : List ℤ := [
  -25, -605, 564, -746, -874, -905, -949, -1044, -1126, -1049, -1099, -1140, -1248, -1122, -1184,
  -1240, -1198, -1285, -1262, -1332, -1418, -1402, -1390, -1285, -1418, -1418, -1418, -1367, -1552, -1440,
  -1367, -1584, -1344, -1616, -1344, -1390, -1418, -1461, -1616, -1770, -1648, -1856, -1770, -1584, -1648,
  -2047, -1685, -2047, -2047, -1856, -2047, -2047, -1770, -400, -584, -523, -580, -604, -625, -587,
  -739, -626, -774, -857, -737, -839, -656, -888, -984, -624, -26, -745, -211, -103, -73,
  -328, 142, -1072, -1062, -231, -458, -494, -518, -579, -550, -541, -653, -621, -703, -53,
  -382, -444, -417, -199, -288, -367, -273, -450, -268, -477, -101, -157, -123, -156, -107,
  -9, 71, 64, 133, 174, 240, 25, -138, -127, -233, -272, -383, 105, -144, 85,
  -115, 188, -112, -245, 236, 305, 26, 395, -3, -164, 321, 57, -68, 346, 86,
  448, 482, 541, 515, 461, 503, 454, -22, -191, 262, 485, 557, 550, -53, -152,
  213, 565, 570, 649, 640, 122, 931, 92, 990, 172, 317, 54, -12, 127, 253,
  8, 108, 104, -144, 733, -64, 265, 370, 485, 152, 366, -12, 507, 473, 146,
  462, 579, 549, 659, 724, 94, 679, 72, -152, 690, 698, 378, -11, 592, 652,
  764, 730, 851, 909, 837, 896, 928, 1050, 74, 1095, 1077, 1206, 1059, 1403, 254,
  1552, 181, 1552, 238, -31, 1526, 199, 47, -214, 32, -219, -153, -323, -198, -319,
  -108, -107, -90, -177, -210, -184, -455, -216, -19, -107, -219, -22, -232, -19, -198,
  -198, -113, -398, 0, -49, -29, 1, 1, 1, 1, 1, 1, 1, 1, 1,
  1]

/-- `TPAQ_STATE_MAP4` (signed 32-bit entries, reproduced verbatim). -/
def tpaqStateMap4 : List ℤ := [
  -34, -648, 644, -793, -889, -981, -1053, -1108, -1108, -1117, -1176, -1198, -1205, -1140, -1355,
  -1332, -1418, -1440, -1402, -1355, -1367, -1418, -1402, -1525, -1504, -1402, -1390, -1378, -1525, -1440,
  -1770, -1552, -1378, -1390, -1616, -1648, -1482, -1616, -1390, -1728, -1770, -2047, -1685, -1616, -1648,
  -1685, -1584, -2047, -1856, -1856, -2047, -2047, -2047, -92, -481, -583, -623, -602, -691, -803,
  -815, -584, -728, -743, -796, -734, -884, -728, -1616, -747, -416, -510, -265, 1, -44,
  -409, 141, -1014, -1094, -201, -490, -533, -537, -605, -536, -564, -676, -620, -688, -43,
  -439, -361, -455, -178, -309, -315, -396, -273, -367, -341, -92, -202, -138, -105, -117,
  -4, 107, 36, 90, 169, 222, -14, -92, -125, -219, -268, -344, 70, -137, -49,
  4, 171, -72, -224, 210, 319, 15, 386, -2, -195, 298, 53, -31, 339, 95,
  383, 499, 557, 491, 457, 468, 421, -53, -168, 267, 485, 573, 508, -65, -109,
  115, 568, 576, 619, 685, 179, 878, 131, 851, 175, 286, 19, -21, 113, 245,
  -54, 101, 210, -121, 766, -47, 282, 441, 483, 129, 303, 16, 557, 460, 114,
  492, 596, 580, 557, 605, 133, 643, 154, -115, 668, 683, 332, -44, 685, 735,
  765, 757, 889, 890, 922, 917, 1012, 1170, 116, 1104, 1192, 1199, 1213, 1368, 254,
  1462, 307, 1616, 359, 50, 1368, 237, 52, -112, -47, -416, -255, -101, 55, -177,
  -166, -73, -132, -56, -132, -237, -495, -152, -43, 69, 46, -121, -191, -102, 170,
  -137, -45, -364, -57, -212, 7, 1, 1, 1, 1, 1, 1, 1, 1, 1,
  1]

/-- `TPAQ_STATE_MAP5` (signed 32-bit entries, reproduced verbatim). -/
def tpaqStateMap5 : List ℤ := [
  -30, -722, 684, -930, -1006, -1155, -1191, -1212, -1332, -1149, -1276, -1297, -1320, -1285, -1344,
  -1648, -1402, -1482, -1552, -1255, -1344, -1504, -1728, -1525, -1418, -1728, -1856, -1584, -1390, -1552,
  -1552, -1984, -1482, -1525, -1856, -2047, -1525, -1770, -1648, -1770, -1482, -1482, -1482, -1584, -2047,
  -2047, -1552, -2047, -2047, -2047, -2047, -1984, -2047, 0, -376, -502, -568, -710, -761, -860,
  -838, -750, -1058, -897, -787, -865, -646, -844, -979, -1000, -416, -564, -832, -416, -64,
  -555, 304, -954, -1081, -219, -448, -543, -510, -550, -544, -564, -650, -595, -747, -61,
  -460, -404, -430, -183, -287, -315, -366, -311, -347, -328, -109, -240, -151, -117, -156,
  -32, 64, 19, 78, 116, 223, 6, -195, -125, -204, -267, -346, 63, -125, -92,
  -22, 186, -128, -169, 182, 290, -14, 384, -27, -134, 303, 0, -5, 328, 96,
  351, 483, 459, 529, 423, 447, 390, -104, -165, 214, 448, 588, 550, -127, -146,
  31, 552, 563, 620, 718, -50, 832, 14, 851, 93, 281, 60, -5, 121, 257,
  -16, 103, 138, -184, 842, -21, 319, 386, 411, 107, 258, 66, 475, 542, 178,
  501, 506, 568, 685, 640, 78, 694, 122, -96, 634, 826, 165, 220, 794, 736,
  960, 746, 823, 833, 939, 1045, 1004, 1248, 22, 1118, 1077, 1213, 1127, 1552, 241,
  1440, 282, 1483, 315, -102, 1391, 352, 124, -188, 19, 1, -268, -782, 0, -322,
  116, 46, -129, 95, -102, -238, -459, -262, -100, 122, -152, -455, -269, -238, 0,
  -152, -416, -369, -219, -175, -41, 1, 1, 1, 1, 1, 1, 1, 1, 1,
  1]

/-- `TPAQ_STATE_MAP6` (signed 32-bit entries, reproduced verbatim). -/
def tpaqStateMap6 : List ℤ := [
  -11, -533, 477, -632, -731, -815, -808, -910, -940, -995, -1094, -1040, -946, -1044, -1198,
  -1099, -1104, -1090, -1162, -1122, -1145, -1205, -1248, -1269, -1255, -1285, -1140, -1219, -1269, -1285,
  -1269, -1367, -1344, -1390, -1482, -1332, -1378, -1461, -1332, -1461, -1525, -1584, -1418, -1504, -1648,
  -1648, -1648, -1856, -1856, -1616, -1984, -1525, -2047, -330, -456, -533, -524, -541, -577, -631,
  -715, -670, -710, -729, -743, -738, -759, -775, -850, -690, -193, -870, -102, 21, -45,
  -282, 96, -1000, -984, -177, -475, -506, -514, -582, -597, -602, -622, -633, -695, -22,
  -422, -381, -435, -107, -290, -327, -360, -316, -366, -374, -62, -212, -111, -162, -83,
  -8, 127, 52, 101, 193, 237, -16, -117, -150, -246, -275, -361, 122, -134, -21,
  28, 220, -132, -215, 231, 330, 40, 406, -11, -196, 329, 68, -42, 391, 101,
  396, 483, 519, 480, 464, 516, 484, -34, -200, 269, 487, 525, 510, -79, -142,
  150, 517, 555, 594, 718, 86, 861, 102, 840, 134, 291, 74, 10, 166, 245,
  16, 117, -21, -126, 652, -71, 291, 355, 491, 10, 251, -21, 527, 525, 43,
  532, 531, 573, 631, 640, 31, 629, 87, -164, 680, 755, 145, 14, 621, 647,
  723, 748, 687, 821, 745, 794, 785, 859, 23, 887, 969, 996, 1007, 1286, 104,
  1321, 138, 1321, 169, -24, 1227, 123, 116, 13, 45, -198, -38, -214, -22, -241,
  13, -161, -54, -108, -120, -345, -484, -119, -80, -58, -189, -253, -223, -106, -73,
  -57, -64, -268, -208, -4, 12, 1, 1, 1, 1, 1, 1, 1, 1, 1,
  1]

/-- The two-row state table, indexed by the observed bit (line 513). -/
def tpaqStateTable : List (List ℕ) := [tpaqStateTable0, tpaqStateTable1]

/-- `hashTPAQ` (lines 348-351); `TPAQ_HASH = 200002979`, shifts on `int32`
are arithmetic. -/
def hashTPAQ (x y : ℕ) : ℕ :=
  let h := mul32 x 200002979 ^^^ mul32 y 200002979
  sar32 h 1 ^^^ sar32 h 9 ^^^ sar32 x 2 ^^^ sar32 y 3 ^^^ 200002979

/-- `TPAQPredictor.addContext` (lines 603-607): multiply, swap the 16-bit
halves, multiply again, adding the context id at each step. -/
def tpaqAddContext (ctxId cx : ℕ) : ℕ :=
  let cx1 := add32 (mul32 cx 987654323) ctxId
  let cx2 := shl32 cx1 16 ||| (cx1 >>> 16)
  add32 (mul32 cx2 123456791) ctxId

/-- Modelled from the spec: `kanzi.Squash` (§4.7; §9 notes the squash and
stretch tables belong to the utility layer, not shown in the staged
sources).  Modelled as a monotone clamp of `2048 + x` into the documented
output range `[0, 4095]`; no claim settled here depends on its exact
values. -/
def squashModel (x : ℤ) : ℕ := (min 4095 (max 0 (2048 + x))).toNat

/-- Modelled from the spec: `LogisticAdaptiveProbMap.get` (§4.8;
`newLogisticAdaptiveProbMap(65536, 7)` is constructed in part_000 line 447
but its code is not among the staged sources).  Only its contract is used
here: it returns a refined probability in `[0, 4095]`.  Modelled as a clamp
of the mixer output; no claim settled here depends on the refinement. -/
def apmGet (y pr ctx : ℕ) : ℕ := min pr 4095

/-- `TPAQMixer` (lines 610-616). -/
structure TPAQMixer where
  pr : ℕ
  skew : ℕ
  w0 : ℕ
  w1 : ℕ
  w2 : ℕ
  w3 : ℕ
  w4 : ℕ
  w5 : ℕ
  w6 : ℕ
  w7 : ℕ
  p0 : ℕ
  p1 : ℕ
  p2 : ℕ
  p3 : ℕ
  p4 : ℕ
  p5 : ℕ
  p6 : ℕ
  p7 : ℕ
  learnRate : ℕ

/-- `TPAQMixer.init` (lines 618-630): weights 2048, learn rate
`TPAQ_BEGIN_LEARN_RATE = 60 << 7 = 7680`. -/
def tpaqMixerInit : TPAQMixer :=
  ⟨2048, 0, 2048, 2048, 2048, 2048, 2048, 2048, 2048, 2048,
    0, 0, 0, 0, 0, 0, 0, 0, 7680⟩

/-- `TPAQMixer.update` (lines 633-654): on a nonzero scaled error, decay the
learn rate by the `(END - rate) >> 31` arithmetic-shift trick, move the skew
and train the eight weights. -/
def tpaqMixerUpdate (m : TPAQMixer) (bit : ℕ) : TPAQMixer :=
  let err := sub32 (shl32 bit 12) m.pr
  if err = 0 then m
  else
    let err1 := sar32 (mul32 err m.learnRate) 7
    { m with
      learnRate := add32 m.learnRate (sar32 (sub32 1792 m.learnRate) 31)
      skew := add32 m.skew err1
      w0 := add32 m.w0 (sar32 (mul32 m.p0 err1) 15)
      w1 := add32 m.w1 (sar32 (mul32 m.p1 err1) 15)
      w2 := add32 m.w2 (sar32 (mul32 m.p2 err1) 15)
      w3 := add32 m.w3 (sar32 (mul32 m.p3 err1) 15)
      w4 := add32 m.w4 (sar32 (mul32 m.p4 err1) 15)
      w5 := add32 m.w5 (sar32 (mul32 m.p5 err1) 15)
      w6 := add32 m.w6 (sar32 (mul32 m.p6 err1) 15)
      w7 := add32 m.w7 (sar32 (mul32 m.p7 err1) 15) }

/-- `TPAQMixer.get` (lines 656-673): cache the inputs, dot-product with the
weights plus skew, squash `(p + 65536) >> 17`. -/
def tpaqMixerGet (m : TPAQMixer) (q0 q1 q2 q3 q4 q5 q6 q7 : ℕ) : TPAQMixer :=
  let p := add32 (add32 (add32 (add32 (add32 (add32 (add32 (add32
    (mul32 m.w0 q0) (mul32 m.w1 q1)) (mul32 m.w2 q2)) (mul32 m.w3 q3))
    (mul32 m.w4 q4)) (mul32 m.w5 q5)) (mul32 m.w6 q6)) (mul32 m.w7 q7)) m.skew
  { m with
    p0 := q0
    p1 := q1
    p2 := q2
    p3 := q3
    p4 := q4
    p5 := q5
    p6 := q6
    p7 := q7
    pr := squashModel (toS32 (sar32 (add32 p 65536) 17)) }

/-- `TPAQPredictor` (lines 353-386): pointers into `states` become indices,
the current-mixer pointer becomes `mixerIdx`, the large arrays become
functions. -/
structure TPAQPredictor where
  pr : ℕ
  c0 : ℕ
  c4 : ℕ
  c8 : ℕ
  bpos : ℕ
  pos : ℕ
  binCount : ℕ
  matchLen : ℕ
  matchPos : ℕ
  hash : ℕ
  statesMask : ℕ
  mixersMask : ℕ
  mixers : ℕ → TPAQMixer
  mixerIdx : ℕ
  buffer : ℕ → ℕ
  hashes : ℕ → ℕ
  states : ℕ → ℕ
  cp0 : ℕ
  cp1 : ℕ
  cp2 : ℕ
  cp3 : ℕ
  cp4 : ℕ
  cp5 : ℕ
  cp6 : ℕ
  ctx0 : ℕ
  ctx1 : ℕ
  ctx2 : ℕ
  ctx3 : ℕ
  ctx4 : ℕ
  ctx5 : ℕ
  ctx6 : ℕ

/-- `NewTPAQPredictor(nil)` (lines 388-449): default sizes
`statesSize = 2^28`, `mixersSize = 2^12`; `pr = 2048`, `c0 = 1`, all
arrays zeroed, all context pointers at slot 0. -/
def tpaqInit : TPAQPredictor where
  pr := 2048
  c0 := 1
  c4 := 0
  c8 := 0
  bpos := 0
  pos := 0
  binCount := 0
  matchLen := 0
  matchPos := 0
  hash := 0
  statesMask := 268435455
  mixersMask := 4095
  mixers := fun _ => tpaqMixerInit
  mixerIdx := 0
  buffer := fun _ => 0
  hashes := fun _ => 0
  states := fun _ => 0
  cp0 := 0
  cp1 := 0
  cp2 := 0
  cp3 := 0
  cp4 := 0
  cp5 := 0
  cp6 := 0
  ctx0 := 0
  ctx1 := 0
  ctx2 := 0
  ctx3 := 0
  ctx4 := 0
  ctx5 := 0
  ctx6 := 0

/-- The backward walk of `findMatch` (lines 566-572): extend `r` while the
bytes before `pos` match the bytes before the candidate position, up to
`TPAQ_MAX_LENGTH = 88`.  `r` grows by 1 per step, so fuel 89 is enough. -/
def tpaqMatchScan (t : TPAQPredictor) : ℕ → ℕ → ℕ
  | 0, r => r
  | fuel + 1, r =>
    if r ≤ 88 ∧
        t.buffer ((sub32 t.pos r) &&& 67108863) = t.buffer ((sub32 t.matchPos r) &&& 67108863) then
      tpaqMatchScan t fuel (r + 1)
    else r

/-- `findMatch` (lines 552-575). -/
def tpaqFindMatch (t : TPAQPredictor) : TPAQPredictor :=
  if 0 < toS32 t.matchLen then
    { t with
      matchLen := if toS32 t.matchLen < 88 then add32 t.matchLen 1 else t.matchLen
      matchPos := add32 t.matchPos 1 }
  else
    let mp := t.hashes t.hash
    if mp ≠ 0 ∧ toS32 (sub32 t.pos mp) ≤ 67108863 then
      let r := tpaqMatchScan { t with matchPos := mp } 89 (add32 t.matchLen 1)
      { t with
        matchPos := mp
        matchLen := sub32 r 1 }
    else { t with matchPos := mp }

/-- The byte-boundary block of `Update` (lines 458-509): store the completed
byte, roll `c4`/`c8` and the match hash, reset `c0`/`bpos`, select the
mixer, recompute the seven context bases, run the match finder and record
the position under the current hash. -/
def tpaqBoundary (t : TPAQPredictor) : TPAQPredictor :=
  let bufSlot := t.pos &&& 67108863
  let pos' := add32 t.pos 1
  let c8' := shl32 t.c8 8 ||| ((sar32 t.c4 24) &&& 255)
  let c4' := shl32 t.c4 8 ||| (t.c0 &&& 255)
  let hash' := (add32 (shl32 (mul32 t.hash 43707) 4) c4') &&& 16777215
  let binCount' := add32 t.binCount ((sar32 c4' 7) &&& 1)
  let text := toS32 binCount' < toS32 (sar32 pos' 2)
  let h1 := if text then (if c4' &&& 2155905152 = 0 then c4' else sar32 c4' 16)
            else sar32 c4' 16
  let h2 := if text then (if c8' &&& 2155905152 = 0 then c8' else sar32 c8' 16)
            else sar32 c8' 16
  let h3 := if text then c4' ^^^ (c8' &&& 65535) else c4' ^^^ (c4' &&& 65535)
  let t1 := { t with
    buffer := fun j => if j = bufSlot then t.c0 &&& 255 else t.buffer j
    pos := pos'
    c8 := c8'
    c4 := c4'
    hash := hash'
    c0 := 1
    bpos := 0
    binCount := binCount'
    mixerIdx := c4' &&& t.mixersMask
    ctx0 := tpaqAddContext 0 h3
    ctx1 := tpaqAddContext 1 (hashTPAQ 200002979 (shl32 c4' 24))
    ctx2 := tpaqAddContext 2 (hashTPAQ 200002979 (shl32 c4' 16))
    ctx3 := tpaqAddContext 3 (hashTPAQ 200002979 (shl32 c4' 8))
    ctx4 := tpaqAddContext 4 (hashTPAQ 200002979 (c4' &&& 4042322160))
    ctx5 := tpaqAddContext 5 (hashTPAQ 200002979 c4')
    ctx6 := tpaqAddContext 6 (hashTPAQ h1 h2) }
  let t2 := tpaqFindMatch t1
  { t2 with hashes := fun j => if j = t2.hash then t2.pos else t2.hashes j }

/-- One context-slot update of `Update` (for instance lines 514-516): apply
the bit transition at the current pointer, point at the new slot
`(ctx + c0) & statesMask`, and read the state-map input there.  Returns the
new `states`, the new pointer and the input (as a 32-bit pattern). -/
def tpaqCtxStep (table : List ℕ) (statesMask : ℕ) (states : ℕ → ℕ) (cp ctx c : ℕ)
    (map : List ℤ) : (ℕ → ℕ) × ℕ × ℕ :=
  let states' := fun j => if j = cp then table.getD (states cp) 0 else states j
  let cp' := (add32 ctx c) &&& statesMask
  (states', cp', ofS32 (map.getD (states' cp') 0))

/-- `addMatchContextPred` (lines 577-601): the match-model input `p7` and
the (possibly killed) match length. -/
def tpaqMatchPred (t : TPAQPredictor) : ℕ × ℕ :=
  if 0 < toS32 t.matchLen then
    let mb := t.buffer (t.matchPos &&& 67108863)
    if t.c0 = (mb ||| 256) >>> (8 - t.bpos) then
      let base := if toS32 t.matchLen ≤ 24 then t.matchLen
                  else add32 24 (sar32 (sub32 t.matchLen 24) 3)
      let signed := if (mb >>> (7 - t.bpos)) &&& 1 = 0 then sub32 0 base else base
      (shl32 signed 6, t.matchLen)
    else (0, 0)
  else (0, t.matchLen)

/-- The final bias adjustment of `Update` (lines 543-544):
`pr = p + int((uint32(p) - 2048) >> 31)` — a logical 32-bit shift, so the
stored value is `p + 1` exactly when `p < 2048`. -/
def tpaqStorePr (p : ℕ) : ℕ := p + (sub32 p 2048) >>> 31

/-- The bias adjustment as claim C5 words it: add the sign of `pr − 2048`
only when the APM output is 2047 or 2048 (this definition follows the
claim's words, for comparison with `tpaqStorePr`). -/
def tpaqStorePrClaim (p : ℕ) : ℤ :=
  if p = 2047 ∨ p = 2048 then (p : ℤ) + Int.sign ((p : ℤ) - 2048) else (p : ℤ)

/-- The per-bit tail of `Update` (lines 511-544): the seven context-slot
updates, the match input, the mixer, the APM and the bias adjustment. -/
def tpaqPerBit (t : TPAQPredictor) (bit : ℕ) : TPAQPredictor :=
  let c := t.c0
  let table := tpaqStateTable.getD bit []
  let r0 := tpaqCtxStep table t.statesMask t.states t.cp0 t.ctx0 c tpaqStateMap0
  let r1 := tpaqCtxStep table t.statesMask r0.1 t.cp1 t.ctx1 c tpaqStateMap1
  let r2 := tpaqCtxStep table t.statesMask r1.1 t.cp2 t.ctx2 c tpaqStateMap2
  let r3 := tpaqCtxStep table t.statesMask r2.1 t.cp3 t.ctx3 c tpaqStateMap3
  let r4 := tpaqCtxStep table t.statesMask r3.1 t.cp4 t.ctx4 c tpaqStateMap4
  let r5 := tpaqCtxStep table t.statesMask r4.1 t.cp5 t.ctx5 c tpaqStateMap5
  let r6 := tpaqCtxStep table t.statesMask r5.1 t.cp6 t.ctx6 c tpaqStateMap6
  let mpr := tpaqMatchPred t
  let m' := tpaqMixerGet (t.mixers t.mixerIdx) r0.2.2 r1.2.2 r2.2.2 r3.2.2 r4.2.2
    r5.2.2 r6.2.2 mpr.1
  let p := apmGet bit m'.pr (t.c0 ||| (t.c4 &&& 65280))
  { t with
    states := r6.1
    cp0 := r0.2.1
    cp1 := r1.2.1
    cp2 := r2.2.1
    cp3 := r3.2.1
    cp4 := r4.2.1
    cp5 := r5.2.1
    cp6 := r6.2.1
    matchLen := mpr.2
    mixers := fun j => if j = t.mixerIdx then m' else t.mixers j
    pr := tpaqStorePr p }

/-- `TPAQPredictor.Update` (lines 452-545): feed the bit to the mixer, fold
it into `c0`, handle the byte boundary, then the per-bit tail. -/
def tpaqUpdate (t : TPAQPredictor) (bit : ℕ) : TPAQPredictor :=
  let tA := { t with
    mixers := fun j =>
      if j = t.mixerIdx then tpaqMixerUpdate (t.mixers t.mixerIdx) bit else t.mixers j
    bpos := t.bpos + 1
    c0 := shl32 t.c0 1 ||| bit }
  let tB := if 255 < toS32 tA.c0 then tpaqBoundary tA else tA
  tpaqPerBit tB bit

/-- The APM output inside `tpaqUpdate t bit` (the argument of the final bias
adjustment), read back from the updated state: the freshly selected mixer
holds the mixed prediction, and the APM context is `c0 | (c4 & 0xFF00)`. -/
def tpaqApmOut (t : TPAQPredictor) (bit : ℕ) : ℕ :=
  let u := tpaqUpdate t bit
  apmGet bit (u.mixers u.mixerIdx).pr (u.c0 ||| (u.c4 &&& 65280))

/-- Folding `Update` over a bit sequence from the freshly constructed
predictor, booleans fed as the bytes 0/1 the coder passes. -/
def tpaqRun (bits : List Bool) : TPAQPredictor :=
  bits.foldl (fun t b => tpaqUpdate t (cond b 1 0)) tpaqInit

/-- One mixer call, as seen from the pool: `update(bit)` or
`get(p0..p7)`. -/
inductive MixerOp where
  | upd (bit : ℕ) : MixerOp
  | sel (q0 q1 q2 q3 q4 q5 q6 q7 : ℕ) : MixerOp

/-- Apply one mixer call. -/
def tpaqMixerStep (m : TPAQMixer) : MixerOp → TPAQMixer
  | .upd b => tpaqMixerUpdate m b
  | .sel q0 q1 q2 q3 q4 q5 q6 q7 => tpaqMixerGet m q0 q1 q2 q3 q4 q5 q6 q7

/-- A mixer of the pool after any sequence of calls since `init`. -/
def tpaqMixerRun (ops : List MixerOp) : TPAQMixer := ops.foldl tpaqMixerStep tpaqMixerInit

end Kanzi

namespace Kanzi

/-- Claim C8 (corrected): `X86Codec.MaxEncodedLen` returns
`n + max(32, n/16)` for `n < 2^30` and `n` for `n ≥ 2^30`; the claim's
boundary (`≤ 1 GiB` against the code's `>= 1<<30`) is off at exactly
`n = 2^30`. -/
theorem x86MaxEncodedLen_eq (n : ℕ) :
    (n < 2 ^ 30 → x86MaxEncodedLen n = n + max 32 (n / 16)) ∧
    (2 ^ 30 ≤ n → x86MaxEncodedLen n = n) := by
  unfold x86MaxEncodedLen
  constructor
  · intro h
    rw [if_neg (by omega)]
    by_cases h5 : n ≤ 512
    · rw [if_pos h5]
      have : n / 16 ≤ 32 := by omega
      omega
    · rw [if_neg h5]
      have : 32 ≤ n / 16 := by omega
      omega
  · intro h
    rw [if_pos (by omega)]

/-- Witness for `x86MaxEncodedLen_eq` at `n = 100` and `n = 2^30`. -/
theorem x86MaxEncodedLen_eq_witness :
    x86MaxEncodedLen 100 = 100 + max 32 (100 / 16) ∧ x86MaxEncodedLen (2 ^ 30) = 2 ^ 30 :=
  ⟨(x86MaxEncodedLen_eq 100).1 (by norm_num), (x86MaxEncodedLen_eq (2 ^ 30)).2 le_rfl⟩

/-- Counterexample to claim C8 as stated: at `n = 2^30` (one GiB) the code
returns `n`, not `n + max(32, n/16)` as the claim's `n ≤ 1 GiB` case says. -/
theorem x86MaxEncodedLen_at_2pow30 :
    x86MaxEncodedLen (2 ^ 30) = 2 ^ 30 ∧
    x86MaxEncodedLen (2 ^ 30) ≠ 2 ^ 30 + max 32 (2 ^ 30 / 16) := by
  constructor
  · unfold x86MaxEncodedLen
    rw [if_pos le_rfl]
  · unfold x86MaxEncodedLen
    rw [if_pos le_rfl]
    omega

/-- Claim C9 (corrected): when the number of jumps the source's counting loop
finds (sign byte `0x00`/`0xFF`; the conflict test in that loop is on the
instruction byte and never fires) is below `count/128`, `X86Codec.Forward`
returns `(0, 0)` with a non-nil error and writes nothing. -/
theorem x86Forward_rejects_few_jumps (src : List ℕ) (dstLen : ℕ)
    (hs : src ≠ []) (hd : dstLen ≠ 0)
    (hj : x86CountJumps src < src.length >>> 7) :
    ∃ e, x86Forward src dstLen false = .ret 0 0 (some e) [] := by
  unfold x86Forward
  rw [if_neg (by simpa using hs), if_neg hd]
  simp only [Bool.false_eq_true, if_false]
  by_cases hcap : dstLen < x86MaxEncodedLen src.length
  · exact ⟨_, by rw [if_pos hcap]⟩
  · exact ⟨_, by rw [if_neg hcap, if_pos hj]⟩

/-- Witness for `x86Forward_rejects_few_jumps`: 128 zero bytes, destination
capacity 160. -/
theorem x86Forward_rejects_few_jumps_witness :
    ∃ e, x86Forward (List.replicate 128 0) 160 false = .ret 0 0 (some e) [] :=
  x86Forward_rejects_few_jumps (List.replicate 128 0) 160 (by decide) (by decide)
    (by decide)

/-- Counterexample to claim C9 as stated: `c9Src` has no valid jump in the
claim's sense (its one jump's first operand byte is the conflicting `0`),
fewer than `count/128 = 1`, yet `Forward` succeeds — the source's counting
loop tests the conflict on the instruction byte, so conflicted jumps count. -/
theorem x86Forward_accepts_conflicted_jump :
    x86ClaimValidJumps c9Src < c9Src.length >>> 7 ∧
    (x86Forward c9Src 160 false).ok = true := by
  constructor
  · decide
  · decide

/-- Claim C2 (code_bug): `tcB` is classified as text (status `0x05`:
full-ASCII and CRLF — the block-final CR escapes the `freqs1[CR][·]` scan),
`textCodec1.Forward` succeeds, `textCodec1.Inverse` succeeds on its output,
but returns `tcBRound`: the final LF+CR of `tcB` comes back as CR+LF. -/
theorem tc_roundtrip_fails :
    computeStats tcB &&& 128 = 0 ∧
    tcForward tcB 16 =
      .ret 16 15 none [5, 97, 98, 48, 97, 98, 48, 10, 97, 98, 48, 97, 98, 48, 10] ∧
    tcInverse (tcForward tcB 16).outOf 48 = .ret 15 16 none tcBRound ∧
    tcBRound ≠ tcB := by
  refine ⟨by decide, by decide, by decide, by decide⟩

/-- Claim C4 (code_bug): fed a status byte, an escape token and a three-byte
varint encoding index `524287 ≥ dictSize = 65536` that ends exactly at the
end of the input, `textCodec1.Inverse` breaks out of its loop with
`srcIdx = srcEnd`, so the trailing consistency check passes and it returns
success (nil error, zero bytes written) instead of rejecting the index. -/
theorem tcInverse_accepts_out_of_range_index :
    tcInverse [0, 15, 255, 255, 255] 64 = .ret 5 0 none [] := by decide

/-- Claim C10 (confirmed): `X86Codec.Forward` and `X86Codec.Inverse`
evaluate `&src[0]` before any length check and hence panic on an empty
source slice, for every destination capacity and aliasing state, while
`TextCodec.Forward` and `RLT.Forward` return `(0, 0, nil)` on empty input
without touching the destination. -/
theorem empty_input_behavior :
    (∀ dstLen aliased, x86Forward [] dstLen aliased = .crash) ∧
    (∀ dstLen aliased, x86Inverse [] dstLen aliased = .crash) ∧
    (∀ dstLen aliased, textCodecForward [] dstLen aliased = .ret 0 0 none []) ∧
    (∀ dstLen aliased, rltForward [] dstLen aliased = .ret 0 0 none []) :=
  ⟨fun _ _ => rfl, fun _ _ => rfl, fun _ _ => rfl, fun _ _ => rfl⟩

/-- Claim C3 (code_bug): on `rltB` (260 bytes, every byte value present so
the escape byte `0` occurs in the input), `RLT.Forward` succeeds — with a
260-byte output in a `MaxEncodedLen 260 = 292`-byte destination — but the
final raw-copied bytes contain the escape, and `RLT.Inverse` rejects its own
codec's output with an error instead of reproducing `rltB`. -/
theorem rlt_roundtrip_fails :
    (rltForward rltB 292 false).ok = true ∧
    (rltForward rltB 292 false).readOf = 260 ∧
    (rltForward rltB 292 false).writtenOf = 260 ∧
    (rltInverse ((rltForward rltB 292 false).outOf) 276 false).errSome = true ∧
    (rltInverse ((rltForward rltB 292 false).outOf) 276 false).outOf ≠ rltB := by
  refine ⟨by decide, by decide, by decide, by decide, by decide⟩

/-! ### TPAQ: helper lemmas -/

/-- Strict monotonicity of powers of two, reversed. -/
theorem pow2_lt_mono {m n : ℕ} (h : 2 ^ m < 2 ^ n) : m < n := by
  by_contra hc
  have h2 : (2:ℕ) ^ n ≤ 2 ^ m := Nat.pow_le_pow_right (by norm_num) (by omega)
  omega

/-- `TPAQMixer.get` leaves the learn rate alone; `update` leaves it alone on
a zero error and otherwise applies the `(1792 - rate) >> 31` decay, which
subtracts one while the rate is above 1792 and nothing at 1792. -/
theorem tpaqMixerStep_learnRate (m : TPAQMixer) (op : MixerOp)
    (h1 : 1792 ≤ m.learnRate) (h2 : m.learnRate ≤ 7680) :
    1792 ≤ (tpaqMixerStep m op).learnRate ∧
      (tpaqMixerStep m op).learnRate ≤ m.learnRate := by
  cases op with
  | sel q0 q1 q2 q3 q4 q5 q6 q7 =>
    simp only [tpaqMixerStep, tpaqMixerGet]
    exact ⟨h1, le_refl _⟩
  | upd b =>
    simp only [tpaqMixerStep, tpaqMixerUpdate]
    split
    · exact ⟨h1, le_refl _⟩
    · simp only [add32, sub32, sar32, Nat.shiftRight_eq_div_pow]
      norm_num
      split <;> omega

/-- Any sequence of mixer calls keeps the learn rate at or above 1792 and
never raises it, from any starting mixer in range. -/
theorem tpaqMixerFold_learnRate (ops : List MixerOp) :
    ∀ m : TPAQMixer, 1792 ≤ m.learnRate → m.learnRate ≤ 7680 →
      1792 ≤ (ops.foldl tpaqMixerStep m).learnRate ∧
        (ops.foldl tpaqMixerStep m).learnRate ≤ m.learnRate := by
  induction ops with
  | nil => exact fun m h1 _ => ⟨h1, le_refl _⟩
  | cons op ops ih =>
    intro m h1 h2
    obtain ⟨a, b⟩ := tpaqMixerStep_learnRate m op h1 h2
    obtain ⟨c, d⟩ := ih (tpaqMixerStep m op) a (le_trans b h2)
    simp only [List.foldl_cons]
    exact ⟨c, le_trans d b⟩

/-- Claim C7 (confirmed): every pool mixer starts with
`learnRate = TPAQ_BEGIN_LEARN_RATE = 60·128 = 7680`; over any sequence of
mixer calls the learn rate never rises and stays in
`[TPAQ_END_LEARN_RATE, TPAQ_BEGIN_LEARN_RATE] = [14·128, 60·128]
= [1792, 7680]`. -/
theorem mixer_learnRate_invariant :
    tpaqMixerInit.learnRate = 7680 ∧
      (∀ ops : List MixerOp,
        1792 ≤ (tpaqMixerRun ops).learnRate ∧ (tpaqMixerRun ops).learnRate ≤ 7680) ∧
      (∀ (ops : List MixerOp) (op : MixerOp),
        (tpaqMixerRun (ops ++ [op])).learnRate ≤ (tpaqMixerRun ops).learnRate) := by
  refine ⟨rfl, fun ops => ?_, fun ops op => ?_⟩
  · obtain ⟨a, b⟩ := tpaqMixerFold_learnRate ops tpaqMixerInit (by decide) (by decide)
    exact ⟨a, b⟩
  · simp only [tpaqMixerRun, List.foldl_append]
    obtain ⟨a, b⟩ := tpaqMixerFold_learnRate ops tpaqMixerInit (by decide) (by decide)
    obtain ⟨c, d⟩ :=
      tpaqMixerStep_learnRate (ops.foldl tpaqMixerStep tpaqMixerInit) op a
        (le_trans b (by decide))
    simpa using d

/-- Claim C5 (corrected): the stored prediction after `Update` is the APM
output passed through `pr = p + int((uint32(p)-2048) >> 31)`.  The shift is
a LOGICAL 32-bit shift, so the adjustment adds 1 exactly when the APM
output is below the center — at every value below 2048, not only at 2047 —
and the stored value IS 2048 precisely when the APM output is 2047 or
2048. -/
theorem tpaq_pr_adjustment (t : TPAQPredictor) (bit p : ℕ) (hp : p ≤ 4095) :
    (tpaqUpdate t bit).pr = tpaqStorePr (tpaqApmOut t bit) ∧
      tpaqStorePr p = if p < 2048 then p + 1 else p := by
  constructor
  · simp only [tpaqApmOut, tpaqUpdate, tpaqPerBit]
    simp
  · unfold tpaqStorePr sub32
    rw [Nat.shiftRight_eq_div_pow]
    split <;> omega

theorem tpaq_pr_adjustment_witness :
    (2047 : ℕ) ≤ 4095 ∧
      tpaqStorePr 2047 = (if (2047 : ℕ) < 2048 then 2047 + 1 else 2047) :=
  ⟨by norm_num, (tpaq_pr_adjustment tpaqInit 0 2047 (by norm_num)).2⟩

/-- `findMatch` changes only the match fields: `pos` survives. -/
theorem tpaqFindMatch_pos (t : TPAQPredictor) : (tpaqFindMatch t).pos = t.pos := by
  simp only [tpaqFindMatch]
  split
  · rfl
  · split
    · rfl
    · rfl

/-- `findMatch` changes only the match fields: `bpos` survives. -/
theorem tpaqFindMatch_bpos (t : TPAQPredictor) : (tpaqFindMatch t).bpos = t.bpos := by
  simp only [tpaqFindMatch]
  split
  · rfl
  · split
    · rfl
    · rfl

/-- `findMatch` changes only the match fields: `c0` survives. -/
theorem tpaqFindMatch_c0 (t : TPAQPredictor) : (tpaqFindMatch t).c0 = t.c0 := by
  simp only [tpaqFindMatch]
  split
  · rfl
  · split
    · rfl
    · rfl

/-- The byte-boundary block advances `pos` by one (32-bit wrapped). -/
theorem tpaqBoundary_pos (t : TPAQPredictor) :
    (tpaqBoundary t).pos = add32 t.pos 1 := by
  simp only [tpaqBoundary, tpaqFindMatch_pos]

/-- The byte-boundary block resets `bpos` to 0. -/
theorem tpaqBoundary_bpos (t : TPAQPredictor) : (tpaqBoundary t).bpos = 0 := by
  simp only [tpaqBoundary, tpaqFindMatch_bpos]

/-- The byte-boundary block resets `c0` to its marker bit 1. -/
theorem tpaqBoundary_c0 (t : TPAQPredictor) : (tpaqBoundary t).c0 = 1 := by
  simp only [tpaqBoundary, tpaqFindMatch_c0]

/-- The per-bit tail does not touch `pos`. -/
theorem tpaqPerBit_pos (t : TPAQPredictor) (bit : ℕ) :
    (tpaqPerBit t bit).pos = t.pos := by
  unfold tpaqPerBit
  rfl

/-- The per-bit tail does not touch `bpos`. -/
theorem tpaqPerBit_bpos (t : TPAQPredictor) (bit : ℕ) :
    (tpaqPerBit t bit).bpos = t.bpos := by
  unfold tpaqPerBit
  rfl

/-- The per-bit tail does not touch `c0`. -/
theorem tpaqPerBit_c0 (t : TPAQPredictor) (bit : ℕ) :
    (tpaqPerBit t bit).c0 = t.c0 := by
  unfold tpaqPerBit
  rfl

/-- One `Update` call keeps the bit-accounting invariant: `pos` holds the
wrapped byte count `(k+1)/8 mod 2^32`, `bpos` the bit offset `(k+1) mod 8`,
and `c0` carries exactly `bpos` data bits under its marker bit. -/
theorem tpaqUpdate_counters (t : TPAQPredictor) (bit k : ℕ) (hbit : bit ≤ 1)
    (h1 : t.pos = k / 8 % 4294967296) (h2 : t.bpos = k % 8)
    (h3 : 2 ^ t.bpos ≤ t.c0) (h4 : t.c0 < 2 ^ (t.bpos + 1)) :
    (tpaqUpdate t bit).pos = (k + 1) / 8 % 4294967296 ∧
      (tpaqUpdate t bit).bpos = (k + 1) % 8 ∧
      2 ^ (tpaqUpdate t bit).bpos ≤ (tpaqUpdate t bit).c0 ∧
      (tpaqUpdate t bit).c0 < 2 ^ ((tpaqUpdate t bit).bpos + 1) := by
  have hb7 : t.bpos ≤ 7 := by omega
  have hc256 : t.c0 < 256 := by
    have hx : (2:ℕ) ^ (t.bpos + 1) ≤ 2 ^ 8 := Nat.pow_le_pow_right (by norm_num) (by omega)
    omega
  have hshl : shl32 t.c0 1 ||| bit = 2 * t.c0 + bit := by
    have he : shl32 t.c0 1 = 2 * t.c0 := by
      unfold shl32
      rw [Nat.shiftLeft_eq]
      norm_num
      omega
    have ho := Nat.mul_add_lt_is_or (show bit < 2 ^ 1 by omega) t.c0
    norm_num at ho
    rw [he, ← ho]
  simp only [tpaqUpdate, hshl]
  have hpow : (2:ℕ) ^ (t.bpos + 1) = 2 ^ t.bpos * 2 := pow_succ 2 t.bpos
  by_cases hcase : 128 ≤ t.c0
  · have hbp7 : t.bpos = 7 := by
      have hx : (2:ℕ) ^ 7 < 2 ^ (t.bpos + 1) := lt_of_le_of_lt (by omega) h4
      have := pow2_lt_mono hx
      omega
    have hcond : 255 < toS32 (2 * t.c0 + bit) := by
      unfold toS32
      split <;> push_cast <;> omega
    rw [if_pos hcond]
    simp only [tpaqPerBit_pos, tpaqPerBit_bpos, tpaqPerBit_c0,
      tpaqBoundary_pos, tpaqBoundary_bpos, tpaqBoundary_c0, add32]
    refine ⟨by omega, by omega, by norm_num, by norm_num⟩
  · have hbp6 : t.bpos ≤ 6 := by
      have hx : (2:ℕ) ^ t.bpos < 2 ^ 7 := lt_of_le_of_lt h3 (by omega)
      have := pow2_lt_mono hx
      omega
    have hcond : ¬ 255 < toS32 (2 * t.c0 + bit) := by
      unfold toS32
      split <;> push_cast <;> omega
    rw [if_neg hcond]
    simp only [tpaqPerBit_pos, tpaqPerBit_bpos, tpaqPerBit_c0]
    rw [hpow] at h4
    refine ⟨by omega, by omega, ?_, ?_⟩
    · rw [hpow]
      omega
    · rw [pow_succ, hpow]
      omega

/-- Folding `Update` over any bit list preserves the bit-accounting
invariant, from any state satisfying it at count `k`. -/
theorem tpaqFold_counters (bits : List Bool) :
    ∀ (k : ℕ) (t : TPAQPredictor),
      t.pos = k / 8 % 4294967296 → t.bpos = k % 8 →
      2 ^ t.bpos ≤ t.c0 → t.c0 < 2 ^ (t.bpos + 1) →
      (bits.foldl (fun s b => tpaqUpdate s (cond b 1 0)) t).pos
          = (k + bits.length) / 8 % 4294967296 ∧
        (bits.foldl (fun s b => tpaqUpdate s (cond b 1 0)) t).bpos
          = (k + bits.length) % 8 ∧
        2 ^ (bits.foldl (fun s b => tpaqUpdate s (cond b 1 0)) t).bpos
          ≤ (bits.foldl (fun s b => tpaqUpdate s (cond b 1 0)) t).c0 ∧
        (bits.foldl (fun s b => tpaqUpdate s (cond b 1 0)) t).c0
          < 2 ^ ((bits.foldl (fun s b => tpaqUpdate s (cond b 1 0)) t).bpos + 1) := by
  induction bits with
  | nil =>
    intro k t h1 h2 h3 h4
    simpa using ⟨h1, h2, h3, h4⟩
  | cons b bits ih =>
    intro k t h1 h2 h3 h4
    obtain ⟨u1, u2, u3, u4⟩ :=
      tpaqUpdate_counters t (cond b 1 0) k (by cases b <;> norm_num) h1 h2 h3 h4
    have hrec := ih (k + 1) (tpaqUpdate t (cond b 1 0)) u1 u2 u3 u4
    simp only [List.foldl_cons, List.length_cons]
    rw [show k + (bits.length + 1) = k + 1 + bits.length by omega]
    exact hrec

/-- Claim C6 (corrected): after feeding a bit list to `Update` from the
fresh predictor, `pos` holds the wrapped byte count `len/8 mod 2^32` and
`bpos` the bit offset `len mod 8`; `c0` stays in `[1, 255]` with
`⌊log2 c0⌋ = bpos` (0 right after a byte boundary); and the claim's
unqualified identity `pos·8 + bpos = len` holds exactly when `len < 2^35`
(the byte counter is a 32-bit integer and wraps beyond that). -/
theorem tpaq_bit_accounting (bits : List Bool) :
    (tpaqRun bits).pos = bits.length / 8 % 4294967296 ∧
      (tpaqRun bits).bpos = bits.length % 8 ∧
      1 ≤ (tpaqRun bits).c0 ∧ (tpaqRun bits).c0 ≤ 255 ∧
      Nat.log2 (tpaqRun bits).c0 = (tpaqRun bits).bpos ∧
      (bits.length < 2 ^ 35 →
        (tpaqRun bits).pos * 8 + (tpaqRun bits).bpos = bits.length) := by
  obtain ⟨h1, h2, h3, h4⟩ :=
    tpaqFold_counters bits 0 tpaqInit rfl rfl (by decide) (by decide)
  rw [tpaqRun]
  simp only [Nat.zero_add] at h1 h2
  have hb7 : (bits.foldl (fun s b => tpaqUpdate s (cond b 1 0)) tpaqInit).bpos ≤ 7 := by
    omega
  refine ⟨h1, h2, le_trans Nat.one_le_two_pow h3, ?_, ?_, ?_⟩
  · have : (2:ℕ) ^ ((bits.foldl (fun s b => tpaqUpdate s (cond b 1 0)) tpaqInit).bpos + 1)
        ≤ 2 ^ 8 := Nat.pow_le_pow_right (by norm_num) (by omega)
    omega
  · rw [Nat.log2_eq_log_two]
    exact Nat.log_eq_of_pow_le_of_lt_pow h3 h4
  · intro hlen
    rw [h1, h2]
    omega

/-- Claim C6 counterexample: after 2^35 `Update` calls (4 GiB of input
bits) the 32-bit byte counter has wrapped to 0, so `pos·8 + bpos = 0`,
refuting the claim's unqualified `pos·8 + bpos = k`. -/
theorem tpaq_bit_accounting_wraps :
    (tpaqRun (List.replicate (2 ^ 35) false)).pos * 8
        + (tpaqRun (List.replicate (2 ^ 35) false)).bpos = 0 ∧
      (2:ℕ) ^ 35 ≠ 0 := by
  obtain ⟨h1, h2, _, _⟩ :=
    tpaqFold_counters (List.replicate (2 ^ 35) false) 0 tpaqInit rfl rfl
      (by decide) (by decide)
  rw [tpaqRun]
  simp only [List.length_replicate, Nat.zero_add] at h1 h2
  refine ⟨?_, by norm_num⟩
  rw [h1, h2]
  norm_num

/-- Claim C5 counterexample: at APM output 2047 the code stores 2048 where
the claim's sign rule gives 2046; at 2048 the code stores the center 2048
itself; at 1000 the code stores 1001 where the claim's rule leaves the
value unchanged. -/
theorem tpaqStorePr_vs_claim :
    tpaqStorePr 2047 = 2048 ∧ tpaqStorePrClaim 2047 = 2046 ∧
      tpaqStorePr 2048 = 2048 ∧ tpaqStorePr 1000 = 1001 ∧
      tpaqStorePrClaim 1000 = 1000 := by decide

end Kanzi

namespace Kanzi

/-- `getD` at an index equals `getD 0` of the corresponding drop. -/
theorem getD_drop_zero (l : List ℕ) : ∀ k, l.getD k 0 = (l.drop k).getD 0 0 := by
  induction l with
  | nil => intro k; cases k <;> rfl
  | cons x xs ih =>
    intro k
    cases k with
    | zero => rfl
    | succ k => simpa using ih k

/-- A drop that starts with `x` pins down `getD` there. -/
theorem getD_of_drop (l : List ℕ) (k x : ℕ) (rest : List ℕ)
    (h : l.drop k = x :: rest) : l.getD k 0 = x := by
  rw [getD_drop_zero l k, h]
  rfl

/-- Advancing a drop that starts with `x` peels the head. -/
theorem drop_succ_of_drop (l : List ℕ) (k x : ℕ) (rest : List ℕ)
    (h : l.drop k = x :: rest) : l.drop (k + 1) = rest := by
  have h2 : (l.drop k).drop 1 = l.drop (k + 1) := List.drop_drop 1 k l
  rw [h] at h2
  simpa using h2.symm

/-- Below the length, a drop decomposes into `getD` head and further drop. -/
theorem drop_eq_getD_cons (l : List ℕ) (k : ℕ) (h : k < l.length) :
    l.drop k = l.getD k 0 :: l.drop (k + 1) := by
  rw [List.getD_eq_getElem l 0 h]
  exact List.drop_eq_getElem_cons h

/-- Every in-range `getD` of a byte list is a byte. -/
theorem getD_lt_256 (l : List ℕ) (k : ℕ) (hl : ∀ b ∈ l, b < 256)
    (h : k < l.length) : l.getD k 0 < 256 := by
  rw [List.getD_eq_getElem l 0 h]
  exact hl _ (List.getElem_mem h)

/-- The forward loop does nothing at or beyond its bound. -/
theorem x86FwdLoop_nostep (src : List ℕ) (endF s : ℕ) (h : endF ≤ s) :
    ∀ fuel, x86FwdLoop src endF fuel s = (s, []) := by
  intro fuel
  cases fuel with
  | zero => rfl
  | succ n => simp [x86FwdLoop, Nat.not_lt.mpr h]

/-- The inverse loop does nothing at or beyond its bound. -/
theorem x86InvLoop_nostep (src : List ℕ) (endI q p : ℕ) (h : endI ≤ q) :
    ∀ fuel, x86InvLoop src endI fuel q p = (q, []) := by
  intro fuel
  cases fuel with
  | zero => rfl
  | succ n => simp [x86InvLoop, Nat.not_lt.mpr h]

/-- The forward loop never moves the source index backwards. -/
theorem x86FwdLoop_le (src : List ℕ) (endF : ℕ) :
    ∀ fuel s, s ≤ (x86FwdLoop src endF fuel s).1 := by
  intro fuel
  induction fuel with
  | zero => intro s; exact le_refl s
  | succ n ih =>
    intro s
    by_cases hs : s < endF
    · simp only [x86FwdLoop, if_pos hs]
      split
      · split
        · have := ih (s + 2)
          dsimp only
          omega
        · split
          · have := ih (s + 5)
            dsimp only
            omega
          · have := ih (s + 1)
            dsimp only
            omega
      · have := ih (s + 1)
        dsimp only
        omega
    · rw [x86FwdLoop_nostep src endF s (Nat.not_lt.mp hs)]

/-- Each forward step emits at least as many bytes as it consumes: the
output of the loop is at least as long as the source range it covered. -/
theorem x86FwdLoop_outlen (src : List ℕ) (endF : ℕ) :
    ∀ fuel s, (x86FwdLoop src endF fuel s).1 ≤ s + (x86FwdLoop src endF fuel s).2.length := by
  intro fuel
  induction fuel with
  | zero => intro s; exact Nat.le_of_eq rfl
  | succ n ih =>
    intro s
    by_cases hs : s < endF
    · simp only [x86FwdLoop, if_pos hs]
      split
      · split
        · have := ih (s + 2)
          dsimp only
          simp only [List.length_cons]
          omega
        · split
          · have := ih (s + 5)
            dsimp only
            simp only [List.length_cons]
            omega
          · have := ih (s + 1)
            dsimp only
            simp only [List.length_cons]
            omega
      · have := ih (s + 1)
        dsimp only
        simp only [List.length_cons]
        omega
    · rw [x86FwdLoop_nostep src endF s (Nat.not_lt.mp hs)]
      simp

/-- With enough fuel the forward loop finishes its range. -/
theorem x86FwdLoop_complete (src : List ℕ) (endF : ℕ) :
    ∀ fuel s, endF ≤ s + fuel → endF ≤ (x86FwdLoop src endF fuel s).1 := by
  intro fuel
  induction fuel with
  | zero => intro s h; simpa using h
  | succ n ih =>
    intro s h
    by_cases hs : s < endF
    · simp only [x86FwdLoop, if_pos hs]
      split
      · split
        · have := ih (s + 2) (by omega)
          dsimp only
          omega
        · split
          · have := ih (s + 5) (by omega)
            dsimp only
            omega
          · have := ih (s + 1) (by omega)
            dsimp only
            omega
      · have := ih (s + 1) (by omega)
        dsimp only
        omega
    · rw [x86FwdLoop_nostep src endF s (Nat.not_lt.mp hs)]
      dsimp only
      omega

/-- At an aligned point reached with enough fuel, the first byte of
"loop output, then raw tail" is the source byte at that point. -/
theorem x86FwdLoop_head (src : List ℕ) (endF : ℕ) (fuel s : ℕ)
    (hf : endF ≤ s + fuel) (hs : s < src.length) :
    ((x86FwdLoop src endF fuel s).2 ++ src.drop (x86FwdLoop src endF fuel s).1).getD 0 0
      = src.getD s 0 := by
  by_cases h : s < endF
  · cases fuel with
    | zero => omega
    | succ n =>
      simp only [x86FwdLoop, if_pos h]
      split
      · split
        · dsimp only
          rfl
        · split
          · dsimp only
            rfl
          · dsimp only
            rfl
      · dsimp only
        rfl
  · rw [x86FwdLoop_nostep src endF s (Nat.not_lt.mp h)]
    dsimp only
    rw [List.nil_append, ← getD_drop_zero]

end Kanzi

namespace Kanzi

/-- Oring a low value under a shifted-in high part is addition. -/
theorem lor_shl_eq_add {b : ℕ} (a i : ℕ) (hb : b < 2 ^ i) :
    b ||| (a <<< i) = b + a * 2 ^ i := by
  rw [Nat.shiftLeft_eq, Nat.lor_comm, show a * 2 ^ i = 2 ^ i * a from mul_comm a _,
    (Nat.mul_add_lt_is_or hb a).symm]
  omega

/-- The little-endian 24-bit address encode/decode round trip of the X86
codec: writing the low three address bytes, then reassembling them with the
sign byte and undoing the `+ (srcIdx+1)` displacement, recovers the three
original operand bytes. -/
theorem x86AddrRoundTrip (cur b2 b3 sgn s : ℕ) (hc : cur < 256) (h2 : b2 < 256)
    (h3 : b3 < 256) (hsgn : sgn = 0 ∨ sgn = 255) :
    (sub32 ((add32 (cur ||| b2 <<< 8 ||| b3 <<< 16 ||| sgn <<< 24) (s + 1) % 256) |||
        ((add32 (cur ||| b2 <<< 8 ||| b3 <<< 16 ||| sgn <<< 24) (s + 1) >>> 8) % 256) <<< 8 |||
        ((add32 (cur ||| b2 <<< 8 ||| b3 <<< 16 ||| sgn <<< 24) (s + 1) >>> 16) % 256) <<< 16 |||
        sgn <<< 24) (s + 1)) % 256 = cur ∧
    ((sub32 ((add32 (cur ||| b2 <<< 8 ||| b3 <<< 16 ||| sgn <<< 24) (s + 1) % 256) |||
        ((add32 (cur ||| b2 <<< 8 ||| b3 <<< 16 ||| sgn <<< 24) (s + 1) >>> 8) % 256) <<< 8 |||
        ((add32 (cur ||| b2 <<< 8 ||| b3 <<< 16 ||| sgn <<< 24) (s + 1) >>> 16) % 256) <<< 16 |||
        sgn <<< 24) (s + 1)) >>> 8) % 256 = b2 ∧
    ((sub32 ((add32 (cur ||| b2 <<< 8 ||| b3 <<< 16 ||| sgn <<< 24) (s + 1) % 256) |||
        ((add32 (cur ||| b2 <<< 8 ||| b3 <<< 16 ||| sgn <<< 24) (s + 1) >>> 8) % 256) <<< 8 |||
        ((add32 (cur ||| b2 <<< 8 ||| b3 <<< 16 ||| sgn <<< 24) (s + 1) >>> 16) % 256) <<< 16 |||
        sgn <<< 24) (s + 1)) >>> 16) % 256 = b3 := by
  have e1 : cur ||| b2 <<< 8 = cur + b2 * 2 ^ 8 := lor_shl_eq_add b2 8 (by omega)
  have e2 : cur + b2 * 2 ^ 8 ||| b3 <<< 16 = cur + b2 * 2 ^ 8 + b3 * 2 ^ 16 :=
    lor_shl_eq_add b3 16 (by omega)
  have e3 : cur + b2 * 2 ^ 8 + b3 * 2 ^ 16 ||| sgn <<< 24
      = cur + b2 * 2 ^ 8 + b3 * 2 ^ 16 + sgn * 2 ^ 24 :=
    lor_shl_eq_add sgn 24 (by omega)
  rw [e1, e2, e3]
  rw [Nat.shiftRight_eq_div_pow, Nat.shiftRight_eq_div_pow]
  have f1 : (add32 (cur + b2 * 2 ^ 8 + b3 * 2 ^ 16 + sgn * 2 ^ 24) (s + 1)) % 256 |||
      ((add32 (cur + b2 * 2 ^ 8 + b3 * 2 ^ 16 + sgn * 2 ^ 24) (s + 1)) / 2 ^ 8 % 256) <<< 8
      = (add32 (cur + b2 * 2 ^ 8 + b3 * 2 ^ 16 + sgn * 2 ^ 24) (s + 1)) % 256 +
        ((add32 (cur + b2 * 2 ^ 8 + b3 * 2 ^ 16 + sgn * 2 ^ 24) (s + 1)) / 2 ^ 8 % 256) * 2 ^ 8 :=
    lor_shl_eq_add _ 8 (by omega)
  rw [f1]
  have f2 := lor_shl_eq_add
    ((add32 (cur + b2 * 2 ^ 8 + b3 * 2 ^ 16 + sgn * 2 ^ 24) (s + 1)) / 2 ^ 16 % 256) 16
    (show (add32 (cur + b2 * 2 ^ 8 + b3 * 2 ^ 16 + sgn * 2 ^ 24) (s + 1)) % 256 +
      ((add32 (cur + b2 * 2 ^ 8 + b3 * 2 ^ 16 + sgn * 2 ^ 24) (s + 1)) / 2 ^ 8 % 256) * 2 ^ 8
      < 2 ^ 16 by omega)
  rw [f2]
  have f3 := lor_shl_eq_add sgn 24
    (show (add32 (cur + b2 * 2 ^ 8 + b3 * 2 ^ 16 + sgn * 2 ^ 24) (s + 1)) % 256 +
      ((add32 (cur + b2 * 2 ^ 8 + b3 * 2 ^ 16 + sgn * 2 ^ 24) (s + 1)) / 2 ^ 8 % 256) * 2 ^ 8 +
      ((add32 (cur + b2 * 2 ^ 8 + b3 * 2 ^ 16 + sgn * 2 ^ 24) (s + 1)) / 2 ^ 16 % 256) * 2 ^ 16
      < 2 ^ 24 by omega)
  rw [f3]
  unfold add32 sub32
  rcases hsgn with h | h <;> subst h <;> refine ⟨by omega, by omega, by omega⟩

end Kanzi

namespace Kanzi

/-- From inside the range, the forward loop stops within 4 positions past
its bound (the largest step is 5 from the last in-range position). -/
theorem x86FwdLoop_ub (src : List ℕ) (endF : ℕ) :
    ∀ fuel s, s < endF → (x86FwdLoop src endF fuel s).1 ≤ endF + 4 := by
  intro fuel
  induction fuel with
  | zero =>
    intro s h
    simp only [x86FwdLoop]
    omega
  | succ n ih =>
    intro s h
    simp only [x86FwdLoop, if_pos h]
    split
    · split
      · dsimp only
        by_cases h2 : s + 2 < endF
        · exact ih (s + 2) h2
        · rw [x86FwdLoop_nostep src endF (s + 2) (by omega) n]
          omega
      · split
        · dsimp only
          by_cases h5 : s + 5 < endF
          · exact ih (s + 5) h5
          · rw [x86FwdLoop_nostep src endF (s + 5) (by omega) n]
            omega
        · dsimp only
          by_cases h1 : s + 1 < endF
          · exact ih (s + 1) h1
          · rw [x86FwdLoop_nostep src endF (s + 1) (by omega) n]
            omega
    · dsimp only
      by_cases h1 : s + 1 < endF
      · exact ih (s + 1) h1
      · rw [x86FwdLoop_nostep src endF (s + 1) (by omega) n]
        omega

/-- Xoring twice with the same mask cancels. -/
theorem xor_xor_cancel (a b : ℕ) : a ^^^ (a ^^^ b) = b := by
  rw [← Nat.xor_assoc, Nat.xor_self, Nat.zero_xor]

/-- Simulation: if the encoded buffer from position `q` on carries exactly
the forward loop's output from source position `s` followed by the raw
tail, then the inverse loop started at `(q, s)` reproduces the source from
`s` on (emitted bytes, then whatever raw tail it leaves). -/
theorem x86SimLoop (src E : List ℕ) (hsrc : ∀ b ∈ src, b < 256) :
    ∀ fuel s q,
      E.drop q = (x86FwdLoop src (src.length - 8) fuel s).2
        ++ src.drop (x86FwdLoop src (src.length - 8) fuel s).1 →
      q + (x86FwdLoop src (src.length - 8) fuel s).2.length
        + (src.length - (x86FwdLoop src (src.length - 8) fuel s).1) = E.length →
      src.length - 8 ≤ s + fuel →
      ∀ fuelI, src.length - s ≤ fuelI →
        (x86InvLoop E (E.length - 8) fuelI q s).2
          ++ E.drop (x86InvLoop E (E.length - 8) fuelI q s).1 = src.drop s := by
  intro fuel
  induction fuel with
  | zero =>
    intro s q ha hq hf fuelI hfi
    simp only [x86FwdLoop, List.length_nil] at ha hq
    rw [x86InvLoop_nostep E (E.length - 8) q s (by omega) fuelI]
    simpa using ha
  | succ n ih =>
    intro s q ha hq hf fuelI hfi
    by_cases hs : s < src.length - 8
    · -- one forward step from an in-range position
      by_cases hb : src.getD s 0 &&& 0xFE = 0xE8
      · by_cases hcur : src.getD (s + 1) 0 = 0 ∨ src.getD (s + 1) 0 = 1 ∨
            src.getD (s + 1) 0 = 2
        · -- escape: the conflicting operand byte is emitted literally
          have hFeq : x86FwdLoop src (src.length - 8) (n + 1) s
              = ((x86FwdLoop src (src.length - 8) n (s + 2)).1,
                src.getD s 0 :: 2 :: src.getD (s + 1) 0 ::
                  (x86FwdLoop src (src.length - 8) n (s + 2)).2) := by
            simp only [x86FwdLoop]
            rw [if_pos hs, if_pos hb, if_pos hcur]
          rw [hFeq] at ha hq
          dsimp only at ha hq
          simp only [List.cons_append] at ha
          simp only [List.length_cons] at hq
          have hol := x86FwdLoop_outlen src (src.length - 8) n (s + 2)
          have hle := x86FwdLoop_le src (src.length - 8) n (s + 2)
          have hd0 : E.getD q 0 = src.getD s 0 := getD_of_drop E q _ _ ha
          have ha1 := drop_succ_of_drop E q _ _ ha
          have hd1 : E.getD (q + 1) 0 = 2 := getD_of_drop E (q + 1) _ _ ha1
          have ha2 := drop_succ_of_drop E (q + 1) _ _ ha1
          have hd2 : E.getD (q + 2) 0 = src.getD (s + 1) 0 :=
            getD_of_drop E (q + 2) _ _ ha2
          have ha3 := drop_succ_of_drop E (q + 2) _ _ ha2
          have hqlt : q < E.length - 8 := by omega
          cases fuelI with
          | zero => omega
          | succ m =>
            by_cases hq2 : q + 2 < E.length - 8
            · cases m with
              | zero => omega
              | succ m2 =>
                have hcns : ¬ (src.getD (s + 1) 0 &&& 0xFE = 0xE8) := by
                  rcases hcur with h | h | h <;> rw [h] <;> decide
                simp only [x86InvLoop]
                rw [if_pos hqlt, hd0, if_pos hb, hd1, if_pos rfl, if_pos hq2, hd2,
                  if_neg hcns]
                dsimp only
                rw [List.cons_append, List.cons_append,
                  ih (s + 2) (q + 3) ha3 (by omega) (by omega) m2 (by omega),
                  ← drop_eq_getD_cons src (s + 1) (by omega),
                  ← drop_eq_getD_cons src s (by omega)]
            · -- the inner bound check fails: the literal is left to the raw tail
              have hs2 : src.length - 8 ≤ s + 2 := by
                by_contra hc
                push_neg at hc
                have hcmp := x86FwdLoop_complete src (src.length - 8) n (s + 2)
                  (by omega)
                have hub := x86FwdLoop_ub src (src.length - 8) n (s + 2) hc
                omega
              have hns := x86FwdLoop_nostep src (src.length - 8) (s + 2) hs2 n
              rw [hns] at ha2
              dsimp only at ha2
              simp only [List.nil_append] at ha2
              simp only [x86InvLoop]
              rw [if_pos hqlt, hd0, if_pos hb, hd1, if_pos rfl,
                x86InvLoop_nostep E (E.length - 8) (q + 2) (s + 1) (by omega) m]
              dsimp only
              rw [List.cons_append, List.nil_append, ha2,
                ← drop_eq_getD_cons src (s + 1) (by omega),
                ← drop_eq_getD_cons src s (by omega)]
        · by_cases hsgn : src.getD (s + 4) 0 = 0 ∨ src.getD (s + 4) 0 = 255
          · -- encode: a genuine relative jump is rewritten to absolute form
            have hFeq : x86FwdLoop src (src.length - 8) (n + 1) s
                = ((x86FwdLoop src (src.length - 8) n (s + 5)).1,
                  src.getD s 0 :: (src.getD (s + 4) 0 + 1) % 256 ::
                  (0xD5 ^^^ (add32 (src.getD (s + 1) 0 ||| src.getD (s + 2) 0 <<< 8 |||
                    src.getD (s + 3) 0 <<< 16 ||| src.getD (s + 4) 0 <<< 24) (s + 1)
                      >>> 16) % 256) ::
                  (0xD5 ^^^ (add32 (src.getD (s + 1) 0 ||| src.getD (s + 2) 0 <<< 8 |||
                    src.getD (s + 3) 0 <<< 16 ||| src.getD (s + 4) 0 <<< 24) (s + 1)
                      >>> 8) % 256) ::
                  (0xD5 ^^^ add32 (src.getD (s + 1) 0 ||| src.getD (s + 2) 0 <<< 8 |||
                    src.getD (s + 3) 0 <<< 16 ||| src.getD (s + 4) 0 <<< 24) (s + 1)
                      % 256) ::
                  (x86FwdLoop src (src.length - 8) n (s + 5)).2) := by
              simp only [x86FwdLoop]
              rw [if_pos hs, if_pos hb, if_neg hcur, if_pos hsgn]
            rw [hFeq] at ha hq
            dsimp only at ha hq
            simp only [List.cons_append] at ha
            simp only [List.length_cons] at hq
            have hol := x86FwdLoop_outlen src (src.length - 8) n (s + 5)
            have hle := x86FwdLoop_le src (src.length - 8) n (s + 5)
            have hd0 : E.getD q 0 = src.getD s 0 := getD_of_drop E q _ _ ha
            have ha1 := drop_succ_of_drop E q _ _ ha
            have hd1 := getD_of_drop E (q + 1) _ _ ha1
            have ha2 := drop_succ_of_drop E (q + 1) _ _ ha1
            have hd2 := getD_of_drop E (q + 2) _ _ ha2
            have ha3 := drop_succ_of_drop E (q + 2) _ _ ha2
            have hd3 := getD_of_drop E (q + 3) _ _ ha3
            have ha4 := drop_succ_of_drop E (q + 3) _ _ ha3
            have hd4 := getD_of_drop E (q + 4) _ _ ha4
            have ha5 := drop_succ_of_drop E (q + 4) _ _ ha4
            have hqlt : q < E.length - 8 := by omega
            have ht2 : ¬ E.getD (q + 1) 0 = 2 := by
              rw [hd1]
              rcases hsgn with hv | hv <;> rw [hv] <;> decide
            have ht01 : E.getD (q + 1) 0 = 0 ∨ E.getD (q + 1) 0 = 1 := by
              rw [hd1]
              rcases hsgn with hv | hv <;> rw [hv]
              · right; decide
              · left; decide
            have hback : (E.getD (q + 1) 0 + 255) % 256 = src.getD (s + 4) 0 := by
              rw [hd1]
              rcases hsgn with hv | hv <;> rw [hv] <;> decide
            have hA := x86AddrRoundTrip (src.getD (s + 1) 0) (src.getD (s + 2) 0)
              (src.getD (s + 3) 0) (src.getD (s + 4) 0) s
              (getD_lt_256 src (s + 1) hsrc (by omega))
              (getD_lt_256 src (s + 2) hsrc (by omega))
              (getD_lt_256 src (s + 3) hsrc (by omega)) hsgn
            cases fuelI with
            | zero => omega
            | succ m =>
              simp only [x86InvLoop]
              rw [if_pos hqlt, hd0, if_pos hb, if_neg ht2, if_pos ht01, hback,
                hd2, hd3, hd4, xor_xor_cancel, xor_xor_cancel, xor_xor_cancel]
              dsimp only
              rw [hA.1, hA.2.1, hA.2.2]
              simp only [List.cons_append]
              rw [ih (s + 5) (q + 5) ha5 (by omega) (by omega) m (by omega),
                drop_eq_getD_cons src s (by omega),
                drop_eq_getD_cons src (s + 1) (by omega),
                drop_eq_getD_cons src (s + 2) (by omega),
                drop_eq_getD_cons src (s + 3) (by omega),
                drop_eq_getD_cons src (s + 4) (by omega)]
          · -- false positive: copied verbatim, and the next source byte keeps
            -- the inverse from misreading it (it is not 0, 1 or 2)
            have hFeq : x86FwdLoop src (src.length - 8) (n + 1) s
                = ((x86FwdLoop src (src.length - 8) n (s + 1)).1,
                  src.getD s 0 :: (x86FwdLoop src (src.length - 8) n (s + 1)).2) := by
              simp only [x86FwdLoop]
              rw [if_pos hs, if_pos hb, if_neg hcur, if_neg hsgn]
            rw [hFeq] at ha hq
            dsimp only at ha hq
            simp only [List.cons_append] at ha
            simp only [List.length_cons] at hq
            have hol := x86FwdLoop_outlen src (src.length - 8) n (s + 1)
            have hle := x86FwdLoop_le src (src.length - 8) n (s + 1)
            have hd0 : E.getD q 0 = src.getD s 0 := getD_of_drop E q _ _ ha
            have ha1 := drop_succ_of_drop E q _ _ ha
            have hd1 : E.getD (q + 1) 0 = src.getD (s + 1) 0 := by
              rw [getD_drop_zero E (q + 1), ha1]
              exact x86FwdLoop_head src (src.length - 8) n (s + 1) (by omega)
                (by omega)
            have hne2 : ¬ E.getD (q + 1) 0 = 2 := by
              rw [hd1]
              exact fun h => hcur (Or.inr (Or.inr h))
            have hne01 : ¬ (E.getD (q + 1) 0 = 0 ∨ E.getD (q + 1) 0 = 1) := by
              rw [hd1]
              exact fun h => hcur (h.imp id Or.inl)
            have hqlt : q < E.length - 8 := by omega
            cases fuelI with
            | zero => omega
            | succ m =>
              simp only [x86InvLoop]
              rw [if_pos hqlt, hd0, if_pos hb, if_neg hne2, if_neg hne01]
              dsimp only
              rw [List.cons_append,
                ih (s + 1) (q + 1) ha1 (by omega) (by omega) m (by omega),
                ← drop_eq_getD_cons src s (by omega)]
      · -- not a jump: plain copy
        have hFeq : x86FwdLoop src (src.length - 8) (n + 1) s
            = ((x86FwdLoop src (src.length - 8) n (s + 1)).1,
              src.getD s 0 :: (x86FwdLoop src (src.length - 8) n (s + 1)).2) := by
          simp only [x86FwdLoop]
          rw [if_pos hs, if_neg hb]
        rw [hFeq] at ha hq
        dsimp only at ha hq
        simp only [List.cons_append] at ha
        simp only [List.length_cons] at hq
        have hol := x86FwdLoop_outlen src (src.length - 8) n (s + 1)
        have hle := x86FwdLoop_le src (src.length - 8) n (s + 1)
        have hd0 : E.getD q 0 = src.getD s 0 := getD_of_drop E q _ _ ha
        have ha1 := drop_succ_of_drop E q _ _ ha
        have hqlt : q < E.length - 8 := by omega
        cases fuelI with
        | zero => omega
        | succ m =>
          simp only [x86InvLoop]
          rw [if_pos hqlt, hd0, if_neg hb]
          dsimp only
          rw [List.cons_append,
            ih (s + 1) (q + 1) ha1 (by omega) (by omega) m (by omega),
            ← drop_eq_getD_cons src s (by omega)]

    · rw [x86FwdLoop_nostep src (src.length - 8) s (Nat.not_lt.mp hs)] at ha hq
      dsimp only at ha hq
      simp only [List.length_nil] at hq
      rw [x86InvLoop_nostep E (E.length - 8) q s (by omega) fuelI]
      simpa using ha

end Kanzi

namespace Kanzi

/-- Claim C1 (confirmed): for every byte sequence of length below `2^30`
whose bytes are in range, if `X86Codec.Forward` succeeds (returns no
error), then `X86Codec.Inverse` applied to the produced output reproduces
the input exactly, byte for byte. -/
theorem x86_roundtrip (src : List ℕ) (dstLen r w : ℕ) (out : List ℕ)
    (hlen : src.length < 2 ^ 30) (hbytes : ∀ b ∈ src, b < 256)
    (hfwd : x86Forward src dstLen false = GoRes.ret r w none out) :
    x86Inverse out src.length false = GoRes.ret out.length src.length none src := by
  simp only [x86Forward] at hfwd
  split at hfwd
  next => exact GoRes.noConfusion hfwd
  next hlen0 =>
    split at hfwd
    next => exact GoRes.noConfusion hfwd
    next hdst0 =>
      split at hfwd
      next => simp at hfwd
      next =>
        split at hfwd
        next => simp at hfwd
        next =>
          split at hfwd
          next => simp at hfwd
          next =>
            split at hfwd
            next => exact GoRes.noConfusion hfwd
            next hnc =>
              injection hfwd with h1 h2 h3 h4
              subst h4
              have hout := x86FwdLoop_outlen src (src.length - 8) src.length 0
              have hle := x86FwdLoop_le src (src.length - 8) src.length 0
              have hEdef : ((x86FwdLoop src (src.length - 8) src.length 0).2
                  ++ src.drop (x86FwdLoop src (src.length - 8) src.length 0).1).length
                  = (x86FwdLoop src (src.length - 8) src.length 0).2.length
                    + (src.length - (x86FwdLoop src (src.length - 8) src.length 0).1) := by
                rw [List.length_append, List.length_drop]
              have hsim := x86SimLoop src
                ((x86FwdLoop src (src.length - 8) src.length 0).2
                  ++ src.drop (x86FwdLoop src (src.length - 8) src.length 0).1)
                hbytes src.length 0 0 (List.drop_zero _)
                (by rw [hEdef]; omega) (by omega)
                ((x86FwdLoop src (src.length - 8) src.length 0).2
                  ++ src.drop (x86FwdLoop src (src.length - 8) src.length 0).1).length
                (by rw [hEdef]; omega)
              rw [List.drop_zero] at hsim
              simp only [x86Inverse]
              rw [if_neg (by rw [hEdef]; omega), if_neg hlen0, if_neg (by decide)]
              rw [hsim, if_neg (lt_irrefl src.length)]

theorem x86_roundtrip_witness :
    (([232, 5, 0, 0, 0, 7, 7, 7, 7, 7, 7, 7, 7] : List ℕ).length < 2 ^ 30) ∧
      x86Inverse ((x86Forward [232, 5, 0, 0, 0, 7, 7, 7, 7, 7, 7, 7, 7] 45 false).outOf)
          ([232, 5, 0, 0, 0, 7, 7, 7, 7, 7, 7, 7, 7] : List ℕ).length false
        = GoRes.ret
            ((x86Forward [232, 5, 0, 0, 0, 7, 7, 7, 7, 7, 7, 7, 7] 45 false).outOf).length
            ([232, 5, 0, 0, 0, 7, 7, 7, 7, 7, 7, 7, 7] : List ℕ).length none
            [232, 5, 0, 0, 0, 7, 7, 7, 7, 7, 7, 7, 7] :=
  ⟨by decide,
    x86_roundtrip [232, 5, 0, 0, 0, 7, 7, 7, 7, 7, 7, 7, 7] 45 13 13
      ((x86Forward [232, 5, 0, 0, 0, 7, 7, 7, 7, 7, 7, 7, 7] 45 false).outOf)
      (by decide) (by simp) (by decide)⟩

end Kanzi
